import Mathlib

/-!
Verification development for the local Tezos operation forger
(`src/pytezos/operation/forge.py`).  The operation-level encoders and the
dispatch/group assembly are translated directly from that file.  The L1/L2
primitives (`forge_nat`, `forge_array`, `forge_base58`, `forge_address`,
`forge_public_key`, `forge_int16/32`, `forge_micheline`, `forge_script`) and
the `operation_tags` table live in modules that are not part of this
repository snapshot; they are modelled from the specification (spec.md,
sections 4.1 to 4.3) and are marked as such.

Bytes are modelled as `List Nat` with every entry below 256 by construction
of the encoders.  Fallible Python code is modelled with `Except Err`.
-/

namespace Forge

/-- Byte strings are lists of naturals (each below 256 by construction). -/
abbrev Bytes := List Nat

/-- Micheline expressions, mirroring the JSON dict shapes the forger consumes:
`mint` for int-dicts, `mstring` for string-dicts, `mbytes` carries the hex
string payload, `mprim` keeps the optional `args` / `annots` dict fields
(absent and present-but-empty are distinct, as for Python dicts), `mseq` is a
JSON list of expressions. -/
inductive Micheline where
  | mint (n : Int)
  | mstring (s : String)
  | mbytes (hexPayload : String)
  | mprim (name : String) (args : Option (List Micheline)) (annots : Option (List String))
  | mseq (xs : List Micheline)

/-- Python values as the forger sees them: `None`, strings, ints, Micheline
dicts, lists and string-keyed dicts. -/
inductive PyVal where
  | vnone
  | vstr (s : String)
  | vint (n : Int)
  | vmich (m : Micheline)
  | vlist (xs : List PyVal)
  | vdict (fields : List (String × PyVal))

/-- A Python dict with string keys (association list; first binding wins). -/
abbrev PyDict := List (String × PyVal)

/-- Error kinds raised by the forger, mirroring the Python exceptions:
`keyError` for missing dict keys, `typeError` / `valueError` for bad value
shapes, `overflowError` for fixed-width int overflow, `unknownPrefixErr` for
a base58 string whose textual prefix is not in the table, `unknownPrim` for
an unknown Michelson primitive, `overflowLength` for an array payload longer
than its length prefix allows, and `unsupportedKind` for the
`NotImplementedError(content[\x22kind\x22])` of `forge_operation`. -/
inductive Err where
  | keyError (k : String)
  | typeError
  | valueError
  | overflowError
  | unknownPrefixErr (s : String)
  | unknownPrim (s : String)
  | overflowLength
  | unsupportedKind (v : PyVal)

mutual

/-- Structural boolean equality on Micheline expressions (Python `==` on the
corresponding JSON dicts). -/
def mbeq : Micheline → Micheline → Bool
  | .mint a, .mint b => a == b
  | .mstring a, .mstring b => a == b
  | .mbytes a, .mbytes b => a == b
  | .mprim n1 a1 an1, .mprim n2 a2 an2 => n1 == n2 && margsbeq a1 a2 && an1 == an2
  | .mseq xs, .mseq ys => mlistbeq xs ys
  | _, _ => false

/-- Boolean equality on optional Micheline argument lists. -/
def margsbeq : Option (List Micheline) → Option (List Micheline) → Bool
  | none, none => true
  | some xs, some ys => mlistbeq xs ys
  | _, _ => false

/-- Boolean equality on Micheline lists. -/
def mlistbeq : List Micheline → List Micheline → Bool
  | [], [] => true
  | x :: xs, y :: ys => mbeq x y && mlistbeq xs ys
  | _, _ => false

end

/-- Dict lookup (`d.get(k)` in Python, `None` mapped to `none`). -/
def dget (d : PyDict) (k : String) : Option PyVal :=
  (d.find? (fun p => p.1 == k)).map (fun p => p.2)

/-- Python truthiness of a value, as used in `if content.get(...):` tests. -/
def truthyV : PyVal → Bool
  | .vnone => false
  | .vstr s => !(s == "")
  | .vint n => !(n == 0)
  | .vmich (.mseq xs) => !xs.isEmpty
  | .vmich _ => true
  | .vlist xs => !xs.isEmpty
  | .vdict d => !d.isEmpty

/-- Python truthiness of a `d.get(k)` result (absent key is falsy). -/
def truthyO : Option PyVal → Bool
  | none => false
  | some v => truthyV v

/-- Python subscript `content[k]` on a dict: `KeyError` when missing. -/
def getF (c : PyDict) (k : String) : Except Err PyVal :=
  match dget c k with
  | some v => .ok v
  | none => .error (.keyError k)

/-- Python subscript `v[k]` on an arbitrary value: `TypeError` unless a dict. -/
def pyIndex (v : PyVal) (k : String) : Except Err PyVal :=
  match v with
  | .vdict d => getF d k
  | _ => .error .typeError

/-- Decimal digit value of a character, `none` for non-digits. -/
def digitVal (c : Char) : Option Nat :=
  if c.isDigit then some (c.toNat - 48) else none

/-- Accumulating decimal parse of a character list; fails on any non-digit. -/
def parseNatAux : List Char → Nat → Option Nat
  | [], acc => some acc
  | c :: cs, acc =>
    match digitVal c with
    | some d => parseNatAux cs (acc * 10 + d)
    | none => none

/-- Character-list form of the decimal-integer parse. -/
def pyParseIntChars : List Char → Option Int
  | [] => none
  | c :: cs =>
    if c = '-' then
      if cs.isEmpty then none
      else (parseNatAux cs 0).map (fun n => -(n : Int))
    else (parseNatAux (c :: cs) 0).map (fun n => (n : Int))

/-- Modelled from the spec: Python `int(s)` on a decimal string (optional
leading minus sign followed by decimal digits); the permissive extras of
CPython (surrounding whitespace, underscores, plus sign) are not modelled as
no claim exercises them. -/
def pyParseInt (s : String) : Option Int :=
  pyParseIntChars s.toList

/-- Modelled from the spec: Python `int(x)` as applied by the encoders to a
numeric field arriving as a decimal string or an integer (`TypeError` /
`ValueError` otherwise). -/
def pyInt : PyVal → Except Err Int
  | .vint n => .ok n
  | .vstr s =>
    match pyParseInt s with
    | some n => .ok n
    | none => .error .valueError
  | _ => .error .typeError

/-- Coercion of a value that must already be a string (Python would raise
`TypeError` / `AttributeError` on anything else). -/
def asStr : PyVal → Except Err String
  | .vstr s => .ok s
  | _ => .error .typeError

/-- Coercion of a value that must already be an int (as for
`value.to_bytes`, which has no string coercion). -/
def asInt : PyVal → Except Err Int
  | .vint n => .ok n
  | _ => .error .typeError

/-- Coercion of a value that must be a list. -/
def asList : PyVal → Except Err (List PyVal)
  | .vlist xs => .ok xs
  | _ => .error .typeError

/-- Coercion of a value that must be a dict. -/
def asDict : PyVal → Except Err PyDict
  | .vdict d => .ok d
  | _ => .error .typeError

/-- Coercion of a value that must be a Micheline expression. -/
def asMich : PyVal → Except Err Micheline
  | .vmich m => .ok m
  | _ => .error .typeError

/-- Field access composed with `int(...)`, i.e. `int(content[f])`. -/
def getIntF (c : PyDict) (f : String) : Except Err Int :=
  getF c f >>= pyInt

/-- Field access for a field that must hold a string. -/
def getStrF (c : PyDict) (f : String) : Except Err String :=
  getF c f >>= asStr

/-- Big-endian fixed-width byte encoding of a natural (low bits kept via
explicit `% 256`). -/
def natBE : Nat → Nat → Bytes
  | 0, _ => []
  | w + 1, n => natBE w (n / 256) ++ [n % 256]

/-- Fuelled little-endian base-128 encoder (structural recursion on the fuel
so that concrete values reduce definitionally; fuel `n` always suffices). -/
def natLE7F : Nat → Nat → Bytes
  | 0, n => [n]
  | fuel + 1, n => if n < 128 then [n] else (n % 128 + 128) :: natLE7F fuel (n / 128)

/-- Little-endian base-128 encoding with continuation bits, the payload of
`forge_nat` (spec 4.1). -/
def natLE7 (n : Nat) : Bytes := natLE7F n n

/-- Modelled from the spec: `forge_nat` fails on negative input and emits the
variable-length unsigned encoding otherwise (spec 4.1). -/
def forge_nat (n : Int) : Except Err Bytes :=
  if n < 0 then .error .valueError else .ok (natLE7 n.toNat)

/-- Modelled from the spec: `forge_bool` is one byte, 0xff / 0x00 (spec 4.1). -/
def forge_bool (b : Bool) : Bytes :=
  if b then [255] else [0]

/-- Modelled from the spec: `forge_array` emits a big-endian length prefix of
the given width followed by the payload, failing when the payload is too long
for the prefix (spec 4.1). -/
def forge_array (payload : Bytes) (lenBytes : Nat) : Except Err Bytes :=
  if payload.length < 2 ^ (8 * lenBytes) then
    .ok (natBE lenBytes payload.length ++ payload)
  else .error .overflowLength

/-- Modelled from the spec: `forge_int16` / `forge_int32` are big-endian
two's complement (value taken mod 2^width) with an overflow check
(spec 4.1). -/
def forge_fixed_int (widthBytes : Nat) (n : Int) : Except Err Bytes :=
  if -(2 ^ (8 * widthBytes - 1)) ≤ n ∧ n < 2 ^ (8 * widthBytes - 1) then
    .ok (natBE widthBytes (n % (2 ^ (8 * widthBytes) : Nat)).toNat)
  else .error .overflowError

/-- Modelled from the spec: `forge_int16` (spec 4.1). -/
def forge_int16 (n : Int) : Except Err Bytes := forge_fixed_int 2 n

/-- Modelled from the spec: `forge_int32` (spec 4.1). -/
def forge_int32 (n : Int) : Except Err Bytes := forge_fixed_int 4 n

/-- UTF-8 encoding of one character (RFC 3629 byte layout). -/
def utf8Char (c : Char) : Bytes :=
  let n := c.toNat
  if n < 128 then [n]
  else if n < 2048 then [192 + n / 64, 128 + n % 64]
  else if n < 65536 then [224 + n / 4096, 128 + (n / 64) % 64, 128 + n % 64]
  else [240 + n / 262144, 128 + (n / 4096) % 64, 128 + (n / 64) % 64, 128 + n % 64]

/-- UTF-8 encoding of a string (Python `s.encode()`). -/
def utf8Encode (s : String) : Bytes :=
  (s.toList.map utf8Char).flatten

/-- Hex digit value of a character (both cases), `none` otherwise. -/
def hexDigitVal (c : Char) : Option Nat :=
  if c.isDigit then some (c.toNat - 48)
  else if 97 ≤ c.toNat ∧ c.toNat ≤ 102 then some (c.toNat - 87)
  else if 65 ≤ c.toNat ∧ c.toNat ≤ 70 then some (c.toNat - 55)
  else none

/-- Pairwise hex decoding of a character list: `ValueError` on odd length or
a non-hex character. -/
def hexDecodeList : List Char → Except Err Bytes
  | [] => .ok []
  | [_] => .error .valueError
  | c1 :: c2 :: rest =>
    match hexDigitVal c1, hexDigitVal c2 with
    | some a, some b => (hexDecodeList rest).map (fun t => (16 * a + b) :: t)
    | _, _ => .error .valueError

/-- Modelled from the spec: Python `bytes.fromhex` on the clean hex strings
the forger consumes (no embedded spaces). -/
def hexDecode (s : String) : Except Err Bytes :=
  hexDecodeList s.toList

/-- Base58 alphabet. -/
def b58Alphabet : List Char :=
  "123456789ABCDEFGHJKLMNPQRSTUVWXYZabcdefghijkmnopqrstuvwxyz".toList

/-- Index of a character in the base58 alphabet. -/
def b58Val (c : Char) : Option Nat :=
  b58Alphabet.findIdx? (fun a => a == c)

/-- Fold a base58 digit string into the represented natural. -/
def b58Fold : List Char → Nat → Option Nat
  | [], acc => some acc
  | c :: cs, acc =>
    match b58Val c with
    | some d => b58Fold cs (acc * 58 + d)
    | none => none

/-- Fuelled big-endian byte expansion (fuel `n` always suffices). -/
def natBEAllF : Nat → Nat → Bytes
  | 0, _ => []
  | fuel + 1, n => if n = 0 then [] else natBEAllF fuel (n / 256) ++ [n % 256]

/-- Big-endian bytes of a natural, no leading zeros (empty for zero). -/
def natBEAll (n : Nat) : Bytes := natBEAllF n n

/-- Count of leading `1` characters (each stands for one zero byte). -/
def b58LeadOnes : List Char → Nat
  | '1' :: cs => b58LeadOnes cs + 1
  | _ => 0

/-- Textual prefix test on the underlying character lists. -/
def strStarts (pre s : String) : Bool :=
  List.isPrefixOf pre.toList s.toList

/-- Raw base58 decoding of a string into bytes. -/
def b58DecodeRaw (s : String) : Except Err Bytes :=
  match b58Fold s.toList 0 with
  | some n => .ok (List.replicate (b58LeadOnes s.toList) 0 ++ natBEAll n)
  | none => .error .valueError

/-- Modelled from the spec: the base58check prefix table, textual prefix to
(binary prefix bytes, payload length) (spec 4.1 and 6).  Binary prefix byte
values are the protocol constants; the spec treats them as data. -/
def b58Table : List (String × Bytes × Nat) :=
  [ ("tz1", ([6, 161, 159], 20)),
    ("tz2", ([6, 161, 161], 20)),
    ("tz3", ([6, 161, 164], 20)),
    ("KT1", ([2, 90, 121], 20)),
    ("edpk", ([13, 15, 37, 217], 32)),
    ("sppk", ([3, 254, 226, 86], 33)),
    ("p2pk", ([3, 178, 139, 127], 33)),
    ("edsig", ([9, 245, 205, 134, 18], 64)),
    ("spsig", ([13, 115, 101, 19, 63], 64)),
    ("p2sig", ([54, 240, 44, 52], 64)),
    ("sig", ([4, 130, 43], 64)),
    ("B", ([1, 52], 32)),
    ("o", ([5, 116], 32)),
    ("txr1", ([1, 128, 120, 31], 20)),
    ("src1", ([17, 165, 134, 138], 32)),
    ("sr1", ([6, 124, 117], 20)) ]

/-- Modelled from the spec: `forge_base58` decodes a base58check string,
strips the known binary prefix and the 4 trailing checksum bytes, and
returns the payload; the textual prefix selects the table entry, an unknown
one fails (spec 4.1).  The double-SHA-256 checksum verification is elided:
no claim depends on `InvalidChecksum`, only on the payload layout. -/
def forge_base58 (s : String) : Except Err Bytes :=
  match b58Table.find? (fun e => strStarts e.1 s) with
  | none => .error (.unknownPrefixErr s)
  | some e => do
    let raw ← b58DecodeRaw s
    if raw.take e.2.1.length = e.2.1 ∧ raw.length = e.2.1.length + e.2.2 + 4 then
      .ok ((raw.drop e.2.1.length).take e.2.2)
    else .error .valueError

/-- Modelled from the spec: `forge_address` (spec 4.1).  With `tz_only` the
input must be a `tz1|tz2|tz3` manager key hash and only the curve tag plus
20-byte hash are emitted; otherwise implicit accounts get a leading 0x00,
originated `KT1` (and the rollup kinds) get their kind tag, the payload and
a trailing padding byte. -/
def forge_address (s : String) (tzOnly : Bool) : Except Err Bytes :=
  if strStarts "tz1" s then
    (forge_base58 s).map (fun p => if tzOnly then 0 :: p else 0 :: 0 :: p)
  else if strStarts "tz2" s then
    (forge_base58 s).map (fun p => if tzOnly then 1 :: p else 0 :: 1 :: p)
  else if strStarts "tz3" s then
    (forge_base58 s).map (fun p => if tzOnly then 2 :: p else 0 :: 2 :: p)
  else if tzOnly then .error .valueError
  else if strStarts "KT1" s then
    (forge_base58 s).map (fun p => 1 :: p ++ [0])
  else if strStarts "txr1" s then
    (forge_base58 s).map (fun p => 2 :: p ++ [0])
  else if strStarts "sr1" s then
    (forge_base58 s).map (fun p => 3 :: p ++ [0])
  else .error (.unknownPrefixErr s)

/-- Modelled from the spec: `forge_public_key`, a curve tag byte followed by
the key material stripped from `edpk|sppk|p2pk` (spec 4.1). -/
def forge_public_key (s : String) : Except Err Bytes :=
  if strStarts "edpk" s then (forge_base58 s).map (fun p => 0 :: p)
  else if strStarts "sppk" s then (forge_base58 s).map (fun p => 1 :: p)
  else if strStarts "p2pk" s then (forge_base58 s).map (fun p => 2 :: p)
  else .error (.unknownPrefixErr s)

/-- Modelled from the spec: a representative part of the protocol-defined
Michelson primitive name to opcode table (spec 4.2 and 8; `Unit` is 0x0b).
The table is a protocol constant treated as data; claims only exercise it
through `forge_micheline`. -/
def primTags : List (String × Nat) :=
  [ ("parameter", 0), ("storage", 1), ("code", 2), ("False", 3), ("Elt", 4),
    ("Left", 5), ("None", 6), ("Pair", 7), ("Right", 8), ("Some", 9),
    ("True", 10), ("Unit", 11), ("PACK", 12), ("UNPACK", 13), ("BLAKE2B", 14),
    ("ADD", 18), ("AMOUNT", 19), ("CAR", 22), ("CDR", 23), ("UNIT", 79),
    ("unit", 108), ("int", 91), ("nat", 98), ("string", 104), ("bytes", 105),
    ("mutez", 106), ("pair", 101), ("or", 100), ("option", 99) ]

/-- Space-joined annotation buffer of a `prim` node (spec 4.2). -/
def annotsPayload (annots : List String) : Bytes :=
  utf8Encode (String.intercalate " " annots)

/-- Opcode of a Michelson primitive name, `UnknownPrim` when absent. -/
def primTag (name : String) : Except Err Nat :=
  match primTags.find? (fun e => e.1 == name) with
  | some e => .ok e.2
  | none => .error (.unknownPrim name)

/-- Modelled from the spec: the variable-length signed integer payload of
Micheline int nodes: first byte holds the sign bit (0x40) and six payload
bits, later bytes hold seven bits each, continuation bit 0x80 throughout
except on the last byte (spec 4.1). -/
def forgeMichInt (n : Int) : Bytes :=
  let a := n.natAbs
  let sign := if n < 0 then 64 else 0
  if a < 64 then [a + sign] else (a % 64 + sign + 128) :: natLE7 (a / 64)

/-- Modelled from the spec: zero-argument primitive layout, tags 0x03 / 0x04
(spec 4.2). -/
def prim0 (op : Nat) (annotList : List String) (hasAnn : Bool) : Except Err Bytes :=
  if hasAnn then
    (forge_array (annotsPayload annotList) 4).map (fun ab => 4 :: op :: ab)
  else .ok [3, op]

mutual

/-- Modelled from the spec: the recursive Micheline serializer (spec 4.2):
a shape tag byte, then shape-specific bytes; primitive applications pick the
smallest tag consistent with (argument count, has annotations), with the
general 0x09 layout (argument sequence as a 4-byte-prefixed array, then the
4-byte-prefixed space-joined annotation buffer) for three or more
arguments. -/
def forge_micheline : Micheline → Except Err Bytes
  | .mint n => .ok (0 :: forgeMichInt n)
  | .mstring s => (forge_array (utf8Encode s) 4).map (fun a => 1 :: a)
  | .mseq xs => do
    let body ← forgeMichList xs
    (forge_array body 4).map (fun a => 2 :: a)
  | .mbytes h => do
    let b ← hexDecode h
    (forge_array b 4).map (fun a => 10 :: a)
  | .mprim name args annots => do
    let op ← primTag name
    let annotList := annots.getD []
    let hasAnn := !annotList.isEmpty
    match args with
    | none => prim0 op annotList hasAnn
    | some [] => prim0 op annotList hasAnn
    | some [a1] => do
      let b1 ← forge_micheline a1
      if hasAnn then
        (forge_array (annotsPayload annotList) 4).map (fun ab => 6 :: op :: b1 ++ ab)
      else .ok (5 :: op :: b1)
    | some [a1, a2] => do
      let b1 ← forge_micheline a1
      let b2 ← forge_micheline a2
      if hasAnn then
        (forge_array (annotsPayload annotList) 4).map
          (fun ab => 8 :: op :: b1 ++ b2 ++ ab)
      else .ok (7 :: op :: b1 ++ b2)
    | some (a1 :: a2 :: a3 :: rest) => do
      let body ← forgeMichList (a1 :: a2 :: a3 :: rest)
      let argArr ← forge_array body 4
      let annArr ← forge_array (annotsPayload annotList) 4
      .ok (9 :: op :: argArr ++ annArr)

/-- Concatenated encodings of a list of Micheline expressions. -/
def forgeMichList : List Micheline → Except Err Bytes
  | [] => .ok []
  | x :: xs => do
    let b ← forge_micheline x
    let bs ← forgeMichList xs
    .ok (b ++ bs)

end

/-- Sequential fallible map (the evaluation order of Python
`b''.join(map(f, xs))`: the first exception aborts the call). -/
def mapME (f : PyVal → Except Err Bytes) : List PyVal → Except Err (List Bytes)
  | [] => .ok []
  | x :: xs => do
    let b ← f x
    let bs ← mapME f xs
    .ok (b :: bs)

/-- Modelled from the spec: `forge_script` for origination, the code and the
storage expression each as a 4-byte-length-prefixed Micheline encoding
(spec 4.3). -/
def forge_script (v : PyVal) : Except Err Bytes := do
  let d ← asDict v
  let code ← getF d "code" >>= asMich
  let cb ← forge_micheline code >>= (forge_array · 4)
  let st ← getF d "storage" >>= asMich
  let sb ← forge_micheline st >>= (forge_array · 4)
  .ok (cb ++ sb)

/-- Modelled from the spec: the operation kind to tag byte table of
`pytezos.rpc.kind` (spec 4.3; `endorsement_with_slot` is 10 in the
protocol table the spec refers to). -/
def operation_tags : List (String × Nat) :=
  [ ("endorsement", 0), ("endorsement_with_slot", 10), ("activate_account", 4),
    ("failing_noop", 17), ("reveal", 107), ("transaction", 108),
    ("origination", 109), ("delegation", 110),
    ("register_global_constant", 111), ("transfer_ticket", 158),
    ("smart_rollup_add_messages", 201),
    ("smart_rollup_execute_outbox_message", 206) ]

/-- Translated from the source (`forge_tag`): `operation_tag.to_bytes(1,
'big')`, which overflows above 255. -/
def forge_tag (t : Nat) : Except Err Bytes :=
  if t < 256 then .ok [t] else .error .overflowError

/-- Subscript into the `operation_tags` dict: `KeyError` on a missing key,
`TypeError`-like failure on a non-string one. -/
def kindTagOf (kv : PyVal) : Except Err Nat :=
  match kv with
  | .vstr k =>
    match List.lookup k operation_tags with
    | some t => .ok t
    | none => .error (.keyError k)
  | _ => .error .typeError

/-- Shared first step of every encoder:
`forge_tag(operation_tags[content['kind']])`. -/
def opTag (c : PyDict) : Except Err Bytes := do
  let kv ← getF c "kind"
  let t ← kindTagOf kv
  forge_tag t

/-- Translated from the source: the `reserved_entrypoints` table. -/
def reserved_entrypoints : List (String × Bytes) :=
  [ ("default", [0]), ("root", [1]), ("do", [2]), ("set_delegate", [3]),
    ("remove_delegate", [4]), ("deposit", [5]) ]

/-- Translated from the source (`forge_entrypoint`): a reserved name
compresses to its single table byte, any other name is 0xff followed by the
one-byte-length-prefixed UTF-8 name. -/
def forge_entrypoint (e : String) : Except Err Bytes :=
  match List.lookup e reserved_entrypoints with
  | some b => .ok b
  | none => (forge_array (utf8Encode e) 1).map (fun a => 255 :: a)

/-- The canonical default-unit Micheline value `\x7bprim: Unit\x7d`. -/
def unitM : Micheline := .mprim "Unit" none none

/-- Translated from the source (`has_parameters`): falsy `parameters` give
`False`; a truthy value gives `False` exactly when its entrypoint equals
`default` and its value equals the unit prim (short-circuit `and`, so the
`value` subscript is only evaluated when the entrypoint matches). -/
def has_parameters (c : PyDict) : Except Err Bool :=
  match dget c "parameters" with
  | none => .ok false
  | some pv =>
    if truthyV pv then do
      let ep ← pyIndex pv "entrypoint"
      if (match ep with | .vstr s => s == "default" | _ => false) then do
        let v ← pyIndex pv "value"
        if (match v with | .vmich m => mbeq m unitM | _ => false) then
          Except.ok false
        else Except.ok true
      else Except.ok true
    else .ok false

/-- Translated from the source: the parameters block of `forge_transaction`:
`bool(false)` when `has_parameters` is false, else `bool(true)`, the forged
entrypoint and the 4-byte-length-prefixed Micheline value. -/
def forgeParamsBlock (c : PyDict) : Except Err Bytes := do
  let hp ← has_parameters c
  if hp then do
    let pv ← getF c "parameters"
    let ep ← pyIndex pv "entrypoint" >>= asStr
    let eb ← forge_entrypoint ep
    let v ← pyIndex pv "value" >>= asMich
    let mb ← forge_micheline v >>= (forge_array · 4)
    .ok (255 :: eb ++ mb)
  else .ok [0]

/-- Translated from the source: the optional delegate block shared by
`forge_origination` and `forge_delegation`: truthy `content.get('delegate')`
gives `bool(true)` plus the tz-only address, otherwise the single
`bool(false)` byte. -/
def forgeDelegateBlock (c : PyDict) : Except Err Bytes :=
  if truthyO (dget c "delegate") then do
    let d ← getF c "delegate" >>= asStr
    let ab ← forge_address d true
    .ok (255 :: ab)
  else .ok [0]

/-- Translated from the source (`forge_activate_account`). -/
def forge_activate_account (c : PyDict) : Except Err Bytes := do
  let tg ← opTag c
  let pb ← getStrF c "pkh" >>= forge_base58
  let sb ← getStrF c "secret" >>= hexDecode
  .ok (tg ++ pb ++ sb)

/-- Translated from the source (`forge_reveal`). -/
def forge_reveal (c : PyDict) : Except Err Bytes := do
  let tg ← opTag c
  let ab ← getStrF c "source" >>= (forge_address · true)
  let fb ← getIntF c "fee" >>= forge_nat
  let cb ← getIntF c "counter" >>= forge_nat
  let gb ← getIntF c "gas_limit" >>= forge_nat
  let sb ← getIntF c "storage_limit" >>= forge_nat
  let pkb ← getStrF c "public_key" >>= forge_public_key
  .ok (tg ++ ab ++ fb ++ cb ++ gb ++ sb ++ pkb)

/-- Translated from the source (`forge_transaction`). -/
def forge_transaction (c : PyDict) : Except Err Bytes := do
  let tg ← opTag c
  let ab ← getStrF c "source" >>= (forge_address · true)
  let fb ← getIntF c "fee" >>= forge_nat
  let cb ← getIntF c "counter" >>= forge_nat
  let gb ← getIntF c "gas_limit" >>= forge_nat
  let sb ← getIntF c "storage_limit" >>= forge_nat
  let amb ← getIntF c "amount" >>= forge_nat
  let db ← getStrF c "destination" >>= (forge_address · false)
  let pb ← forgeParamsBlock c
  .ok (tg ++ ab ++ fb ++ cb ++ gb ++ sb ++ amb ++ db ++ pb)

/-- Translated from the source (`forge_origination`). -/
def forge_origination (c : PyDict) : Except Err Bytes := do
  let tg ← opTag c
  let ab ← getStrF c "source" >>= (forge_address · true)
  let fb ← getIntF c "fee" >>= forge_nat
  let cb ← getIntF c "counter" >>= forge_nat
  let gb ← getIntF c "gas_limit" >>= forge_nat
  let sb ← getIntF c "storage_limit" >>= forge_nat
  let bb ← getIntF c "balance" >>= forge_nat
  let db ← forgeDelegateBlock c
  let scb ← getF c "script" >>= forge_script
  .ok (tg ++ ab ++ fb ++ cb ++ gb ++ sb ++ bb ++ db ++ scb)

/-- Translated from the source (`forge_delegation`). -/
def forge_delegation (c : PyDict) : Except Err Bytes := do
  let tg ← opTag c
  let ab ← getStrF c "source" >>= (forge_address · true)
  let fb ← getIntF c "fee" >>= forge_nat
  let cb ← getIntF c "counter" >>= forge_nat
  let gb ← getIntF c "gas_limit" >>= forge_nat
  let sb ← getIntF c "storage_limit" >>= forge_nat
  let db ← forgeDelegateBlock c
  .ok (tg ++ ab ++ fb ++ cb ++ gb ++ sb ++ db)

/-- Translated from the source (`forge_endorsement`). -/
def forge_endorsement (c : PyDict) : Except Err Bytes := do
  let tg ← opTag c
  let lb ← getIntF c "level" >>= forge_int32
  .ok (tg ++ lb)

/-- Translated from the source (`forge_inline_endorsement`), applied to the
`endorsement` sub-dict of an `endorsement_with_slot`. -/
def forge_inline_endorsement (v : PyVal) : Except Err Bytes := do
  let c ← asDict v
  let bb ← getStrF c "branch" >>= forge_base58
  let ops ← getF c "operations"
  let kv ← pyIndex ops "kind"
  let tagNat ← kindTagOf kv
  let tb ← forge_nat (tagNat : Int)
  let lv ← pyIndex ops "level" >>= pyInt
  let lb ← forge_int32 lv
  let sg ← getStrF c "signature" >>= forge_base58
  .ok (bb ++ tb ++ lb ++ sg)

/-- Translated from the source (`forge_endorsement_with_slot`); note that
`slot` is passed to `forge_int16` without an `int(...)` conversion. -/
def forge_endorsement_with_slot (c : PyDict) : Except Err Bytes := do
  let tg ← opTag c
  let ev ← getF c "endorsement"
  let ib ← forge_inline_endorsement ev
  let ia ← forge_array ib 4
  let sv ← getF c "slot"
  let sn ← asInt sv
  let sb ← forge_int16 sn
  .ok (tg ++ ia ++ sb)

/-- Translated from the source (`forge_failing_noop`). -/
def forge_failing_noop (c : PyDict) : Except Err Bytes := do
  let tg ← opTag c
  let ar ← getStrF c "arbitrary"
  let ab ← forge_array (utf8Encode ar) 4
  .ok (tg ++ ab)

/-- Translated from the source (`forge_register_global_constant`). -/
def forge_register_global_constant (c : PyDict) : Except Err Bytes := do
  let tg ← opTag c
  let ab ← getStrF c "source" >>= (forge_address · true)
  let fb ← getIntF c "fee" >>= forge_nat
  let cb ← getIntF c "counter" >>= forge_nat
  let gb ← getIntF c "gas_limit" >>= forge_nat
  let sb ← getIntF c "storage_limit" >>= forge_nat
  let vb ← getF c "value" >>= asMich >>= forge_micheline >>= (forge_array · 4)
  .ok (tg ++ ab ++ fb ++ cb ++ gb ++ sb ++ vb)

/-- Translated from the source (`forge_transfer_ticket`). -/
def forge_transfer_ticket (c : PyDict) : Except Err Bytes := do
  let tg ← opTag c
  let ab ← getStrF c "source" >>= (forge_address · true)
  let fb ← getIntF c "fee" >>= forge_nat
  let cb ← getIntF c "counter" >>= forge_nat
  let gb ← getIntF c "gas_limit" >>= forge_nat
  let sb ← getIntF c "storage_limit" >>= forge_nat
  let tcb ← getF c "ticket_contents" >>= asMich >>= forge_micheline >>= (forge_array · 4)
  let ttb ← getF c "ticket_ty" >>= asMich >>= forge_micheline >>= (forge_array · 4)
  let tkb ← getStrF c "ticket_ticketer" >>= (forge_address · false)
  let tab ← getIntF c "ticket_amount" >>= forge_nat
  let db ← getStrF c "destination" >>= (forge_address · false)
  let eb ← getStrF c "entrypoint"
  let ea ← forge_array (utf8Encode eb) 4
  .ok (tg ++ ab ++ fb ++ cb ++ gb ++ sb ++ tcb ++ ttb ++ tkb ++ tab ++ db ++ ea)

/-- Translated from the source (`forge_smart_rollup_add_messages`): each hex
message becomes its own 4-byte-length-prefixed array, the concatenation is
wrapped in one outer 4-byte-length-prefixed array. -/
def forge_smart_rollup_add_messages (c : PyDict) : Except Err Bytes := do
  let tg ← opTag c
  let ab ← getStrF c "source" >>= (forge_address · true)
  let fb ← getIntF c "fee" >>= forge_nat
  let cb ← getIntF c "counter" >>= forge_nat
  let gb ← getIntF c "gas_limit" >>= forge_nat
  let sb ← getIntF c "storage_limit" >>= forge_nat
  let mv ← getF c "message"
  let xs ← asList mv
  let parts ← mapME (fun v => do
    let s ← asStr v
    let d ← hexDecode s
    forge_array d 4) xs
  let outer ← forge_array parts.flatten 4
  .ok (tg ++ ab ++ fb ++ cb ++ gb ++ sb ++ outer)

/-- Translated from the source (`forge_smart_rollup_execute_outbox_message`). -/
def forge_smart_rollup_execute_outbox_message (c : PyDict) : Except Err Bytes := do
  let tg ← opTag c
  let ab ← getStrF c "source" >>= (forge_address · true)
  let fb ← getIntF c "fee" >>= forge_nat
  let cb ← getIntF c "counter" >>= forge_nat
  let gb ← getIntF c "gas_limit" >>= forge_nat
  let sb ← getIntF c "storage_limit" >>= forge_nat
  let rb ← getStrF c "rollup" >>= forge_base58
  let ccb ← getStrF c "cemented_commitment" >>= forge_base58
  let opb ← getStrF c "output_proof" >>= hexDecode
  let oa ← forge_array opb 4
  .ok (tg ++ ab ++ fb ++ cb ++ gb ++ sb ++ rb ++ ccb ++ oa)

/-- Translated from the source: the `encode_content` dispatch table of
`forge_operation`, in its original order. -/
def encode_content : List (String × (PyDict → Except Err Bytes)) :=
  [ ("failing_noop", forge_failing_noop),
    ("activate_account", forge_activate_account),
    ("reveal", forge_reveal),
    ("transaction", forge_transaction),
    ("origination", forge_origination),
    ("delegation", forge_delegation),
    ("endorsement", forge_endorsement),
    ("endorsement_with_slot", forge_endorsement_with_slot),
    ("register_global_constant", forge_register_global_constant),
    ("transfer_ticket", forge_transfer_ticket),
    ("smart_rollup_add_messages", forge_smart_rollup_add_messages),
    ("smart_rollup_execute_outbox_message", forge_smart_rollup_execute_outbox_message) ]

/-- The twelve supported operation kinds, in dispatch-table order. -/
def supported_kinds : List String := encode_content.map (fun e => e.1)

/-- Translated from the source (`forge_operation`): look the kind up in the
dispatch table and call the encoder; a missing table entry (unknown string
or non-string kind) raises `NotImplementedError(content['kind'])`. -/
def forge_operation (c : PyDict) : Except Err Bytes := do
  let kv ← getF c "kind"
  match kv with
  | .vstr k =>
    match List.lookup k encode_content with
    | some f => f c
    | none => .error (.unsupportedKind (.vstr k))
  | _ => .error (.unsupportedKind kv)

/-- Translated from the source (`forge_operation_group`): the decoded branch
hash followed by the forged contents joined in order. -/
def forge_operation_group (g : PyDict) : Except Err Bytes := do
  let bb ← getStrF g "branch" >>= forge_base58
  let cv ← getF g "contents"
  let xs ← asList cv
  let rs ← mapME (fun v => asDict v >>= forge_operation) xs
  .ok (bb ++ rs.flatten)

/-! ### Basic rewriting lemmas for the `Except` monad -/

theorem ebind_ok {α β : Type} (a : α) (f : α → Except Err β) :
    (Except.ok a >>= f) = f a := rfl

theorem ebind_error {α β : Type} (e : Err) (f : α → Except Err β) :
    ((Except.error e : Except Err α) >>= f) = Except.error e := rfl

theorem emap_ok {α β : Type} (a : α) (f : α → β) :
    (Except.ok a : Except Err α).map f = Except.ok (f a) := rfl

theorem emap_error {α β : Type} (e : Err) (f : α → β) :
    (Except.error e : Except Err α).map f = Except.error e := rfl

/-! ### Decimal strings and the Python `int` round trip -/

/-- Fuelled little-endian decimal digit expansion (fuel `n` suffices). -/
def natDigitsRevF : Nat → Nat → List Nat
  | 0, n => [n]
  | fuel + 1, n => if n < 10 then [n] else n % 10 :: natDigitsRevF fuel (n / 10)

/-- Little-endian decimal digits of a natural (most significant last). -/
def natDigitsRev (n : Nat) : List Nat := natDigitsRevF n n

theorem natDigitsRevF_irrel :
    ∀ f1, ∀ f2 n, n ≤ f1 → n ≤ f2 → natDigitsRevF f1 n = natDigitsRevF f2 n := by
  intro f1
  induction f1 with
  | zero =>
    intro f2 n h1 _
    have hn : n = 0 := by omega
    subst hn
    cases f2 with
    | zero => rfl
    | succ f2 => simp [natDigitsRevF]
  | succ f1 ih =>
    intro f2 n h1 h2
    cases f2 with
    | zero =>
      have hn : n = 0 := by omega
      subst hn
      simp [natDigitsRevF]
    | succ f2 =>
      simp only [natDigitsRevF]
      by_cases hn : n < 10
      · rw [if_pos hn, if_pos hn]
      · rw [if_neg hn, if_neg hn]
        have hlt : n / 10 < n := Nat.div_lt_self (by omega) (by omega)
        rw [ih f2 (n / 10) (by omega) (by omega)]

theorem natDigitsRev_eq (n : Nat) :
    natDigitsRev n = if n < 10 then [n] else n % 10 :: natDigitsRev (n / 10) := by
  unfold natDigitsRev
  cases n with
  | zero => rfl
  | succ m =>
    simp only [natDigitsRevF]
    by_cases hn : m + 1 < 10
    · rw [if_pos hn, if_pos hn]
    · rw [if_neg hn, if_neg hn]
      have hlt : (m + 1) / 10 < m + 1 := Nat.div_lt_self (by omega) (by omega)
      rw [natDigitsRevF_irrel m ((m + 1) / 10) ((m + 1) / 10) (by omega) (by omega)]

/-- Characters of the canonical decimal representation of a natural. -/
def decimalDigitChars (n : Nat) : List Char :=
  (natDigitsRev n).reverse.map (fun d => Char.ofNat (48 + d))

/-- Canonical decimal string of an integer (leading minus when negative). -/
def intDecimalRepr (n : Int) : String :=
  if n < 0 then String.mk ('-' :: decimalDigitChars n.natAbs)
  else String.mk (decimalDigitChars n.toNat)

theorem natDigitsRev_lt10 (n : Nat) : ∀ d ∈ natDigitsRev n, d < 10 := by
  induction n using Nat.strong_induction_on with
  | _ n ih =>
    rw [natDigitsRev_eq]
    split
    · intro d hd
      simp only [List.mem_singleton] at hd
      omega
    · intro d hd
      rcases List.mem_cons.mp hd with rfl | hd
      · exact Nat.mod_lt _ (by omega)
      · exact ih (n / 10) (Nat.div_lt_self (by omega) (by omega)) d hd

theorem natDigitsRev_ne_nil (n : Nat) : natDigitsRev n ≠ [] := by
  rw [natDigitsRev_eq]
  split <;> simp

theorem foldl_natDigitsRev (n : Nat) :
    ∀ acc, (natDigitsRev n).reverse.foldl (fun a d => a * 10 + d) acc =
      acc * 10 ^ (natDigitsRev n).length + n := by
  induction n using Nat.strong_induction_on with
  | _ n ih =>
    intro acc
    rw [natDigitsRev_eq]
    split
    · simp only [List.reverse_singleton, List.foldl_cons, List.foldl_nil,
        List.length_singleton, pow_one]
    · rename_i hn
      simp only [List.reverse_cons, List.foldl_append, List.foldl_cons,
        List.foldl_nil, List.length_cons]
      rw [ih (n / 10) (Nat.div_lt_self (by omega) (by omega)) acc]
      rw [pow_succ, ← mul_assoc]
      omega

theorem digitVal_ofNat (d : Nat) (h : d < 10) :
    digitVal (Char.ofNat (48 + d)) = some d := by
  interval_cases d <;> rfl

theorem char_ofNat_digit_ne_dash (d : Nat) (h : d < 10) :
    ¬ Char.ofNat (48 + d) = '-' := by
  interval_cases d <;> decide

theorem parseNatAux_digits (ds : List Nat) :
    ∀ acc, (∀ d ∈ ds, d < 10) →
      parseNatAux (ds.map (fun d => Char.ofNat (48 + d))) acc =
        some (ds.foldl (fun a d => a * 10 + d) acc) := by
  induction ds with
  | nil => intro acc _; rfl
  | cons d ds ih =>
    intro acc h
    have hd : d < 10 := h d (by simp)
    simp only [List.map_cons, parseNatAux, digitVal_ofNat d hd, List.foldl_cons]
    exact ih (acc * 10 + d) (fun x hx => h x (by simp [hx]))

theorem parseNatAux_decimalDigitChars (n : Nat) :
    parseNatAux (decimalDigitChars n) 0 = some n := by
  unfold decimalDigitChars
  rw [parseNatAux_digits _ 0 (fun d hd => natDigitsRev_lt10 n d (List.mem_reverse.mp hd))]
  rw [show (natDigitsRev n).reverse.foldl (fun a d => a * 10 + d) 0 = n by
    rw [foldl_natDigitsRev n 0]; omega]

theorem decimalDigitChars_ne_nil (n : Nat) : decimalDigitChars n ≠ [] := by
  unfold decimalDigitChars
  intro h
  exact natDigitsRev_ne_nil n (by simpa using congrArg List.reverse (by simpa using h))

theorem toList_mk (l : List Char) : (String.mk l).toList = l := rfl

theorem pyParseIntChars_decimal (n : Nat) :
    pyParseIntChars (decimalDigitChars n) = some (n : Int) := by
  rcases hds : (natDigitsRev n).reverse with _ | ⟨d0, ds⟩
  · exact absurd (by simpa using congrArg List.reverse hds) (natDigitsRev_ne_nil n)
  · have hchars : decimalDigitChars n =
        Char.ofNat (48 + d0) :: ds.map (fun d => Char.ofNat (48 + d)) := by
      unfold decimalDigitChars
      rw [hds, List.map_cons]
    have hd0 : d0 < 10 :=
      natDigitsRev_lt10 n d0 (List.mem_reverse.mp (by rw [hds]; simp))
    rw [hchars]
    simp only [pyParseIntChars]
    rw [if_neg (char_ofNat_digit_ne_dash d0 hd0)]
    rw [← hchars, parseNatAux_decimalDigitChars n]
    rfl

theorem pyInt_decimalRepr (n : Int) : pyInt (.vstr (intDecimalRepr n)) = .ok n := by
  unfold intDecimalRepr
  by_cases hn : n < 0
  · rw [if_pos hn]
    simp only [pyInt, pyParseInt, toList_mk, pyParseIntChars, if_true]
    rw [if_neg (by simpa using decimalDigitChars_ne_nil n.natAbs)]
    rw [parseNatAux_decimalDigitChars n.natAbs]
    have h2 : -((n.natAbs : Nat) : Int) = n := by omega
    simp [h2, abs_of_neg hn]
  · rw [if_neg hn]
    simp only [pyInt, pyParseInt, toList_mk]
    rw [pyParseIntChars_decimal n.toNat]
    have h2 : ((n.toNat : Nat) : Int) = n := by omega
    simp [h2]

/-! ### Congruence lemmas: each encoder reads its content dict only through
the accessors below, so agreement of the accessor results transfers to the
forged bytes. -/

theorem getF_congr {c1 c2 : PyDict} {f : String} (h : dget c1 f = dget c2 f) :
    getF c1 f = getF c2 f := by
  unfold getF
  rw [h]

theorem getStrF_congr {c1 c2 : PyDict} {f : String} (h : dget c1 f = dget c2 f) :
    getStrF c1 f = getStrF c2 f := by
  unfold getStrF
  rw [getF_congr h]

theorem getIntF_congr {c1 c2 : PyDict} {f : String} (h : dget c1 f = dget c2 f) :
    getIntF c1 f = getIntF c2 f := by
  unfold getIntF
  rw [getF_congr h]

theorem opTag_congr {c1 c2 : PyDict} (h : dget c1 "kind" = dget c2 "kind") :
    opTag c1 = opTag c2 := by
  unfold opTag
  rw [getF_congr h]

theorem has_parameters_congr {c1 c2 : PyDict}
    (h : dget c1 "parameters" = dget c2 "parameters") :
    has_parameters c1 = has_parameters c2 := by
  unfold has_parameters
  rw [h]

theorem forgeParamsBlock_congr {c1 c2 : PyDict}
    (h : dget c1 "parameters" = dget c2 "parameters") :
    forgeParamsBlock c1 = forgeParamsBlock c2 := by
  unfold forgeParamsBlock
  rw [has_parameters_congr h, getF_congr h]

theorem forgeDelegateBlock_congr {c1 c2 : PyDict}
    (h : dget c1 "delegate" = dget c2 "delegate") :
    forgeDelegateBlock c1 = forgeDelegateBlock c2 := by
  unfold forgeDelegateBlock
  rw [h, getF_congr h]

theorem forge_activate_account_congr {c1 c2 : PyDict}
    (hk : dget c1 "kind" = dget c2 "kind")
    (hp : dget c1 "pkh" = dget c2 "pkh")
    (hs : dget c1 "secret" = dget c2 "secret") :
    forge_activate_account c1 = forge_activate_account c2 := by
  unfold forge_activate_account
  rw [opTag_congr hk, getStrF_congr hp, getStrF_congr hs]

theorem forge_reveal_congr {c1 c2 : PyDict}
    (hk : dget c1 "kind" = dget c2 "kind")
    (hsrc : dget c1 "source" = dget c2 "source")
    (hfee : getIntF c1 "fee" = getIntF c2 "fee")
    (hcnt : getIntF c1 "counter" = getIntF c2 "counter")
    (hgas : getIntF c1 "gas_limit" = getIntF c2 "gas_limit")
    (hst : getIntF c1 "storage_limit" = getIntF c2 "storage_limit")
    (hpk : dget c1 "public_key" = dget c2 "public_key") :
    forge_reveal c1 = forge_reveal c2 := by
  unfold forge_reveal
  rw [opTag_congr hk, getStrF_congr hsrc, hfee, hcnt, hgas, hst, getStrF_congr hpk]

theorem forge_transaction_congr {c1 c2 : PyDict}
    (hk : dget c1 "kind" = dget c2 "kind")
    (hsrc : dget c1 "source" = dget c2 "source")
    (hfee : getIntF c1 "fee" = getIntF c2 "fee")
    (hcnt : getIntF c1 "counter" = getIntF c2 "counter")
    (hgas : getIntF c1 "gas_limit" = getIntF c2 "gas_limit")
    (hst : getIntF c1 "storage_limit" = getIntF c2 "storage_limit")
    (hamt : getIntF c1 "amount" = getIntF c2 "amount")
    (hdst : dget c1 "destination" = dget c2 "destination")
    (hpar : forgeParamsBlock c1 = forgeParamsBlock c2) :
    forge_transaction c1 = forge_transaction c2 := by
  unfold forge_transaction
  rw [opTag_congr hk, getStrF_congr hsrc, hfee, hcnt, hgas, hst, hamt,
    getStrF_congr hdst, hpar]

theorem forge_origination_congr {c1 c2 : PyDict}
    (hk : dget c1 "kind" = dget c2 "kind")
    (hsrc : dget c1 "source" = dget c2 "source")
    (hfee : getIntF c1 "fee" = getIntF c2 "fee")
    (hcnt : getIntF c1 "counter" = getIntF c2 "counter")
    (hgas : getIntF c1 "gas_limit" = getIntF c2 "gas_limit")
    (hst : getIntF c1 "storage_limit" = getIntF c2 "storage_limit")
    (hbal : getIntF c1 "balance" = getIntF c2 "balance")
    (hdel : forgeDelegateBlock c1 = forgeDelegateBlock c2)
    (hscr : dget c1 "script" = dget c2 "script") :
    forge_origination c1 = forge_origination c2 := by
  unfold forge_origination
  rw [opTag_congr hk, getStrF_congr hsrc, hfee, hcnt, hgas, hst, hbal, hdel,
    getF_congr hscr]

theorem forge_delegation_congr {c1 c2 : PyDict}
    (hk : dget c1 "kind" = dget c2 "kind")
    (hsrc : dget c1 "source" = dget c2 "source")
    (hfee : getIntF c1 "fee" = getIntF c2 "fee")
    (hcnt : getIntF c1 "counter" = getIntF c2 "counter")
    (hgas : getIntF c1 "gas_limit" = getIntF c2 "gas_limit")
    (hst : getIntF c1 "storage_limit" = getIntF c2 "storage_limit")
    (hdel : forgeDelegateBlock c1 = forgeDelegateBlock c2) :
    forge_delegation c1 = forge_delegation c2 := by
  unfold forge_delegation
  rw [opTag_congr hk, getStrF_congr hsrc, hfee, hcnt, hgas, hst, hdel]

theorem forge_endorsement_congr {c1 c2 : PyDict}
    (hk : dget c1 "kind" = dget c2 "kind")
    (hlv : getIntF c1 "level" = getIntF c2 "level") :
    forge_endorsement c1 = forge_endorsement c2 := by
  unfold forge_endorsement
  rw [opTag_congr hk, hlv]

theorem forge_endorsement_with_slot_congr {c1 c2 : PyDict}
    (hk : dget c1 "kind" = dget c2 "kind")
    (hend : dget c1 "endorsement" = dget c2 "endorsement")
    (hslot : dget c1 "slot" = dget c2 "slot") :
    forge_endorsement_with_slot c1 = forge_endorsement_with_slot c2 := by
  unfold forge_endorsement_with_slot
  rw [opTag_congr hk, getF_congr hend, getF_congr hslot]

theorem forge_failing_noop_congr {c1 c2 : PyDict}
    (hk : dget c1 "kind" = dget c2 "kind")
    (har : dget c1 "arbitrary" = dget c2 "arbitrary") :
    forge_failing_noop c1 = forge_failing_noop c2 := by
  unfold forge_failing_noop
  rw [opTag_congr hk, getStrF_congr har]

theorem forge_register_global_constant_congr {c1 c2 : PyDict}
    (hk : dget c1 "kind" = dget c2 "kind")
    (hsrc : dget c1 "source" = dget c2 "source")
    (hfee : getIntF c1 "fee" = getIntF c2 "fee")
    (hcnt : getIntF c1 "counter" = getIntF c2 "counter")
    (hgas : getIntF c1 "gas_limit" = getIntF c2 "gas_limit")
    (hst : getIntF c1 "storage_limit" = getIntF c2 "storage_limit")
    (hval : dget c1 "value" = dget c2 "value") :
    forge_register_global_constant c1 = forge_register_global_constant c2 := by
  unfold forge_register_global_constant
  rw [opTag_congr hk, getStrF_congr hsrc, hfee, hcnt, hgas, hst, getF_congr hval]

theorem forge_transfer_ticket_congr {c1 c2 : PyDict}
    (hk : dget c1 "kind" = dget c2 "kind")
    (hsrc : dget c1 "source" = dget c2 "source")
    (hfee : getIntF c1 "fee" = getIntF c2 "fee")
    (hcnt : getIntF c1 "counter" = getIntF c2 "counter")
    (hgas : getIntF c1 "gas_limit" = getIntF c2 "gas_limit")
    (hst : getIntF c1 "storage_limit" = getIntF c2 "storage_limit")
    (htc : dget c1 "ticket_contents" = dget c2 "ticket_contents")
    (htt : dget c1 "ticket_ty" = dget c2 "ticket_ty")
    (htk : dget c1 "ticket_ticketer" = dget c2 "ticket_ticketer")
    (hta : getIntF c1 "ticket_amount" = getIntF c2 "ticket_amount")
    (hdst : dget c1 "destination" = dget c2 "destination")
    (hep : dget c1 "entrypoint" = dget c2 "entrypoint") :
    forge_transfer_ticket c1 = forge_transfer_ticket c2 := by
  unfold forge_transfer_ticket
  rw [opTag_congr hk, getStrF_congr hsrc, hfee, hcnt, hgas, hst, getF_congr htc,
    getF_congr htt, getStrF_congr htk, hta, getStrF_congr hdst, getStrF_congr hep]

theorem forge_smart_rollup_add_messages_congr {c1 c2 : PyDict}
    (hk : dget c1 "kind" = dget c2 "kind")
    (hsrc : dget c1 "source" = dget c2 "source")
    (hfee : getIntF c1 "fee" = getIntF c2 "fee")
    (hcnt : getIntF c1 "counter" = getIntF c2 "counter")
    (hgas : getIntF c1 "gas_limit" = getIntF c2 "gas_limit")
    (hst : getIntF c1 "storage_limit" = getIntF c2 "storage_limit")
    (hmsg : dget c1 "message" = dget c2 "message") :
    forge_smart_rollup_add_messages c1 = forge_smart_rollup_add_messages c2 := by
  unfold forge_smart_rollup_add_messages
  rw [opTag_congr hk, getStrF_congr hsrc, hfee, hcnt, hgas, hst, getF_congr hmsg]

theorem forge_smart_rollup_execute_outbox_message_congr {c1 c2 : PyDict}
    (hk : dget c1 "kind" = dget c2 "kind")
    (hsrc : dget c1 "source" = dget c2 "source")
    (hfee : getIntF c1 "fee" = getIntF c2 "fee")
    (hcnt : getIntF c1 "counter" = getIntF c2 "counter")
    (hgas : getIntF c1 "gas_limit" = getIntF c2 "gas_limit")
    (hst : getIntF c1 "storage_limit" = getIntF c2 "storage_limit")
    (hro : dget c1 "rollup" = dget c2 "rollup")
    (hcc : dget c1 "cemented_commitment" = dget c2 "cemented_commitment")
    (hop : dget c1 "output_proof" = dget c2 "output_proof") :
    forge_smart_rollup_execute_outbox_message c1 =
      forge_smart_rollup_execute_outbox_message c2 := by
  unfold forge_smart_rollup_execute_outbox_message
  rw [opTag_congr hk, getStrF_congr hsrc, hfee, hcnt, hgas, hst, getStrF_congr hro,
    getStrF_congr hcc, getStrF_congr hop]

/-! ### No encoder ever raises `unsupportedKind`: that error is private to the
dispatch step of `forge_operation`. -/

/-- The computation never fails with the `unsupportedKind` error. -/
def noUK {α : Type} (x : Except Err α) : Prop :=
  ∀ v, x ≠ .error (.unsupportedKind v)

theorem noUK_ok {α : Type} (a : α) : noUK (Except.ok a : Except Err α) := by
  intro v h
  exact Except.noConfusion h

theorem noUK_err {α : Type} (e : Err)
    (h : ∀ v, e = Err.unsupportedKind v → False) :
    noUK (Except.error e : Except Err α) := by
  intro v hv
  injection hv with h2
  exact h v h2

theorem noUK_keyError {α : Type} (k : String) :
    noUK (Except.error (Err.keyError k) : Except Err α) :=
  noUK_err _ (fun _ h => Err.noConfusion h)

theorem noUK_typeError {α : Type} :
    noUK (Except.error Err.typeError : Except Err α) :=
  noUK_err _ (fun _ h => Err.noConfusion h)

theorem noUK_valueError {α : Type} :
    noUK (Except.error Err.valueError : Except Err α) :=
  noUK_err _ (fun _ h => Err.noConfusion h)

theorem noUK_overflowError {α : Type} :
    noUK (Except.error Err.overflowError : Except Err α) :=
  noUK_err _ (fun _ h => Err.noConfusion h)

theorem noUK_unknownPrefixErr {α : Type} (s : String) :
    noUK (Except.error (Err.unknownPrefixErr s) : Except Err α) :=
  noUK_err _ (fun _ h => Err.noConfusion h)

theorem noUK_unknownPrim {α : Type} (s : String) :
    noUK (Except.error (Err.unknownPrim s) : Except Err α) :=
  noUK_err _ (fun _ h => Err.noConfusion h)

theorem noUK_overflowLength {α : Type} :
    noUK (Except.error Err.overflowLength : Except Err α) :=
  noUK_err _ (fun _ h => Err.noConfusion h)

theorem noUK_bind {α β : Type} {x : Except Err α} {f : α → Except Err β}
    (hx : noUK x) (hf : ∀ a, noUK (f a)) : noUK (x >>= f) := by
  intro v h
  cases x with
  | ok a => exact hf a v (by rwa [ebind_ok] at h)
  | error e =>
    rw [ebind_error] at h
    injection h with h2
    exact hx v (by rw [h2])

theorem noUK_map {α β : Type} {x : Except Err α} {f : α → β}
    (hx : noUK x) : noUK (x.map f) := by
  intro v h
  cases x with
  | ok a =>
    rw [emap_ok] at h
    exact Except.noConfusion h
  | error e =>
    rw [emap_error] at h
    injection h with h2
    exact hx v (by rw [h2])

theorem noUK_getF (c : PyDict) (k : String) : noUK (getF c k) := by
  unfold getF
  split
  · exact noUK_ok _
  · exact noUK_keyError _

theorem noUK_pyIndex (v : PyVal) (k : String) : noUK (pyIndex v k) := by
  unfold pyIndex
  split
  · exact noUK_getF _ _
  · exact noUK_typeError

theorem noUK_pyInt (v : PyVal) : noUK (pyInt v) := by
  unfold pyInt
  split
  · exact noUK_ok _
  · split
    · exact noUK_ok _
    · exact noUK_valueError
  · exact noUK_typeError

theorem noUK_asStr (v : PyVal) : noUK (asStr v) := by
  unfold asStr
  split
  · exact noUK_ok _
  · exact noUK_typeError

theorem noUK_asInt (v : PyVal) : noUK (asInt v) := by
  unfold asInt
  split
  · exact noUK_ok _
  · exact noUK_typeError

theorem noUK_asList (v : PyVal) : noUK (asList v) := by
  unfold asList
  split
  · exact noUK_ok _
  · exact noUK_typeError

theorem noUK_asDict (v : PyVal) : noUK (asDict v) := by
  unfold asDict
  split
  · exact noUK_ok _
  · exact noUK_typeError

theorem noUK_asMich (v : PyVal) : noUK (asMich v) := by
  unfold asMich
  split
  · exact noUK_ok _
  · exact noUK_typeError

theorem noUK_getIntF (c : PyDict) (f : String) : noUK (getIntF c f) :=
  noUK_bind (noUK_getF c f) noUK_pyInt

theorem noUK_getStrF (c : PyDict) (f : String) : noUK (getStrF c f) :=
  noUK_bind (noUK_getF c f) noUK_asStr

theorem noUK_forge_nat (n : Int) : noUK (forge_nat n) := by
  unfold forge_nat
  split
  · exact noUK_valueError
  · exact noUK_ok _

theorem noUK_forge_array (p : Bytes) (k : Nat) : noUK (forge_array p k) := by
  unfold forge_array
  split
  · exact noUK_ok _
  · exact noUK_overflowLength

theorem noUK_forge_fixed_int (w : Nat) (n : Int) : noUK (forge_fixed_int w n) := by
  unfold forge_fixed_int
  split
  · exact noUK_ok _
  · exact noUK_overflowError

theorem noUK_forge_int16 (n : Int) : noUK (forge_int16 n) :=
  noUK_forge_fixed_int 2 n

theorem noUK_forge_int32 (n : Int) : noUK (forge_int32 n) :=
  noUK_forge_fixed_int 4 n

theorem noUK_hexDecodeList : (l : List Char) → noUK (hexDecodeList l)
  | [] => by
    rw [hexDecodeList]
    exact noUK_ok _
  | [c] => by
    rw [hexDecodeList]
    exact noUK_valueError
  | c1 :: c2 :: rest => by
    rw [hexDecodeList]
    split
    · exact noUK_map (noUK_hexDecodeList rest)
    · exact noUK_valueError

theorem noUK_hexDecode (s : String) : noUK (hexDecode s) :=
  noUK_hexDecodeList s.toList

theorem noUK_b58DecodeRaw (s : String) : noUK (b58DecodeRaw s) := by
  unfold b58DecodeRaw
  split
  · exact noUK_ok _
  · exact noUK_valueError

theorem noUK_forge_base58 (s : String) : noUK (forge_base58 s) := by
  unfold forge_base58
  split
  · exact noUK_unknownPrefixErr _
  · refine noUK_bind (noUK_b58DecodeRaw s) (fun raw => ?_)
    split
    · exact noUK_ok _
    · exact noUK_valueError

theorem noUK_forge_address (s : String) (tzOnly : Bool) :
    noUK (forge_address s tzOnly) := by
  unfold forge_address
  split
  · exact noUK_map (noUK_forge_base58 s)
  · split
    · exact noUK_map (noUK_forge_base58 s)
    · split
      · exact noUK_map (noUK_forge_base58 s)
      · split
        · exact noUK_valueError
        · split
          · exact noUK_map (noUK_forge_base58 s)
          · split
            · exact noUK_map (noUK_forge_base58 s)
            · split
              · exact noUK_map (noUK_forge_base58 s)
              · exact noUK_unknownPrefixErr _

theorem noUK_forge_public_key (s : String) : noUK (forge_public_key s) := by
  unfold forge_public_key
  split
  · exact noUK_map (noUK_forge_base58 s)
  · split
    · exact noUK_map (noUK_forge_base58 s)
    · split
      · exact noUK_map (noUK_forge_base58 s)
      · exact noUK_unknownPrefixErr _

theorem noUK_forge_tag (t : Nat) : noUK (forge_tag t) := by
  unfold forge_tag
  split
  · exact noUK_ok _
  · exact noUK_overflowError

theorem noUK_kindTagOf (kv : PyVal) : noUK (kindTagOf kv) := by
  unfold kindTagOf
  split
  · split
    · exact noUK_ok _
    · exact noUK_keyError _
  · exact noUK_typeError

theorem noUK_opTag (c : PyDict) : noUK (opTag c) := by
  unfold opTag
  refine noUK_bind (noUK_getF c "kind") (fun kv => ?_)
  exact noUK_bind (noUK_kindTagOf kv) noUK_forge_tag

theorem noUK_forge_entrypoint (e : String) : noUK (forge_entrypoint e) := by
  unfold forge_entrypoint
  split
  · exact noUK_ok _
  · exact noUK_map (noUK_forge_array _ _)

theorem noUK_prim0 (op : Nat) (al : List String) (b : Bool) :
    noUK (prim0 op al b) := by
  unfold prim0
  split
  · exact noUK_map (noUK_forge_array _ _)
  · exact noUK_ok _

mutual

theorem noUK_forge_micheline : (m : Micheline) → noUK (forge_micheline m)
  | .mint n => by
    rw [forge_micheline]
    exact noUK_ok _
  | .mstring s => by
    rw [forge_micheline]
    exact noUK_map (noUK_forge_array _ _)
  | .mseq xs => by
    rw [forge_micheline]
    exact noUK_bind (noUK_forgeMichList xs) (fun body => noUK_map (noUK_forge_array _ _))
  | .mbytes h => by
    rw [forge_micheline]
    exact noUK_bind (noUK_hexDecode h) (fun b => noUK_map (noUK_forge_array _ _))
  | .mprim name args annots => by
    rw [forge_micheline]
    refine noUK_bind ?_ (fun op => ?_)
    · unfold primTag
      split
      · exact noUK_ok _
      · exact noUK_unknownPrim _
    · split
      · exact noUK_prim0 _ _ _
      · exact noUK_prim0 _ _ _
      · rename_i a1
        refine noUK_bind (noUK_forge_micheline a1) (fun b1 => ?_)
        split
        · exact noUK_map (noUK_forge_array _ _)
        · exact noUK_ok _
      · rename_i a1 a2
        refine noUK_bind (noUK_forge_micheline a1) (fun b1 => ?_)
        refine noUK_bind (noUK_forge_micheline a2) (fun b2 => ?_)
        split
        · exact noUK_map (noUK_forge_array _ _)
        · exact noUK_ok _
      · rename_i a1 a2 a3 rest
        refine noUK_bind (noUK_forgeMichList (a1 :: a2 :: a3 :: rest)) (fun body => ?_)
        refine noUK_bind (noUK_forge_array _ _) (fun argArr => ?_)
        refine noUK_bind (noUK_forge_array _ _) (fun annArr => ?_)
        exact noUK_ok _

theorem noUK_forgeMichList : (l : List Micheline) → noUK (forgeMichList l)
  | [] => by
    rw [forgeMichList]
    exact noUK_ok _
  | x :: xs => by
    rw [forgeMichList]
    exact noUK_bind (noUK_forge_micheline x)
      (fun b => noUK_bind (noUK_forgeMichList xs) (fun bs => noUK_ok _))

end

theorem noUK_forge_script (v : PyVal) : noUK (forge_script v) := by
  unfold forge_script
  refine noUK_bind (noUK_asDict v) (fun d => ?_)
  refine noUK_bind (noUK_bind (noUK_getF _ _) noUK_asMich) (fun code => ?_)
  refine noUK_bind (noUK_bind (noUK_forge_micheline code) (fun b => noUK_forge_array b 4))
    (fun cb => ?_)
  refine noUK_bind (noUK_bind (noUK_getF _ _) noUK_asMich) (fun st => ?_)
  refine noUK_bind (noUK_bind (noUK_forge_micheline st) (fun b => noUK_forge_array b 4))
    (fun sb => ?_)
  exact noUK_ok _

theorem noUK_has_parameters (c : PyDict) : noUK (has_parameters c) := by
  unfold has_parameters
  split
  · exact noUK_ok _
  · split
    · refine noUK_bind (noUK_pyIndex _ _) (fun ep => ?_)
      split
      · refine noUK_bind (noUK_pyIndex _ _) (fun v => ?_)
        split
        · exact noUK_ok _
        · exact noUK_ok _
      · exact noUK_ok _
    · exact noUK_ok _

theorem noUK_forgeParamsBlock (c : PyDict) : noUK (forgeParamsBlock c) := by
  unfold forgeParamsBlock
  refine noUK_bind (noUK_has_parameters c) (fun hp => ?_)
  split
  · refine noUK_bind (noUK_getF _ _) (fun pv => ?_)
    refine noUK_bind (noUK_bind (noUK_pyIndex _ _) noUK_asStr) (fun ep => ?_)
    refine noUK_bind (noUK_forge_entrypoint ep) (fun eb => ?_)
    refine noUK_bind (noUK_bind (noUK_pyIndex _ _) noUK_asMich) (fun v => ?_)
    refine noUK_bind (noUK_bind (noUK_forge_micheline v) (fun b => noUK_forge_array b 4))
      (fun mb => ?_)
    exact noUK_ok _
  · exact noUK_ok _

theorem noUK_forgeDelegateBlock (c : PyDict) : noUK (forgeDelegateBlock c) := by
  unfold forgeDelegateBlock
  split
  · refine noUK_bind (noUK_bind (noUK_getF _ _) noUK_asStr) (fun d => ?_)
    refine noUK_bind (noUK_forge_address d true) (fun ab => ?_)
    exact noUK_ok _
  · exact noUK_ok _

theorem noUK_forge_activate_account (c : PyDict) : noUK (forge_activate_account c) := by
  unfold forge_activate_account
  refine noUK_bind (noUK_opTag c) (fun tg => ?_)
  refine noUK_bind (noUK_bind (noUK_getStrF _ _) noUK_forge_base58) (fun pb => ?_)
  refine noUK_bind (noUK_bind (noUK_getStrF _ _) noUK_hexDecode) (fun sb => ?_)
  exact noUK_ok _

theorem noUK_forge_reveal (c : PyDict) : noUK (forge_reveal c) := by
  unfold forge_reveal
  refine noUK_bind (noUK_opTag c) (fun tg => ?_)
  refine noUK_bind (noUK_bind (noUK_getStrF _ _) (fun s => noUK_forge_address s true))
    (fun ab => ?_)
  refine noUK_bind (noUK_bind (noUK_getIntF _ _) noUK_forge_nat) (fun fb => ?_)
  refine noUK_bind (noUK_bind (noUK_getIntF _ _) noUK_forge_nat) (fun cb => ?_)
  refine noUK_bind (noUK_bind (noUK_getIntF _ _) noUK_forge_nat) (fun gb => ?_)
  refine noUK_bind (noUK_bind (noUK_getIntF _ _) noUK_forge_nat) (fun sb => ?_)
  refine noUK_bind (noUK_bind (noUK_getStrF _ _) noUK_forge_public_key) (fun pkb => ?_)
  exact noUK_ok _

theorem noUK_forge_transaction (c : PyDict) : noUK (forge_transaction c) := by
  unfold forge_transaction
  refine noUK_bind (noUK_opTag c) (fun tg => ?_)
  refine noUK_bind (noUK_bind (noUK_getStrF _ _) (fun s => noUK_forge_address s true))
    (fun ab => ?_)
  refine noUK_bind (noUK_bind (noUK_getIntF _ _) noUK_forge_nat) (fun fb => ?_)
  refine noUK_bind (noUK_bind (noUK_getIntF _ _) noUK_forge_nat) (fun cb => ?_)
  refine noUK_bind (noUK_bind (noUK_getIntF _ _) noUK_forge_nat) (fun gb => ?_)
  refine noUK_bind (noUK_bind (noUK_getIntF _ _) noUK_forge_nat) (fun sb => ?_)
  refine noUK_bind (noUK_bind (noUK_getIntF _ _) noUK_forge_nat) (fun amb => ?_)
  refine noUK_bind (noUK_bind (noUK_getStrF _ _) (fun s => noUK_forge_address s false))
    (fun db => ?_)
  refine noUK_bind (noUK_forgeParamsBlock c) (fun pb => ?_)
  exact noUK_ok _

theorem noUK_forge_origination (c : PyDict) : noUK (forge_origination c) := by
  unfold forge_origination
  refine noUK_bind (noUK_opTag c) (fun tg => ?_)
  refine noUK_bind (noUK_bind (noUK_getStrF _ _) (fun s => noUK_forge_address s true))
    (fun ab => ?_)
  refine noUK_bind (noUK_bind (noUK_getIntF _ _) noUK_forge_nat) (fun fb => ?_)
  refine noUK_bind (noUK_bind (noUK_getIntF _ _) noUK_forge_nat) (fun cb => ?_)
  refine noUK_bind (noUK_bind (noUK_getIntF _ _) noUK_forge_nat) (fun gb => ?_)
  refine noUK_bind (noUK_bind (noUK_getIntF _ _) noUK_forge_nat) (fun sb => ?_)
  refine noUK_bind (noUK_bind (noUK_getIntF _ _) noUK_forge_nat) (fun bb => ?_)
  refine noUK_bind (noUK_forgeDelegateBlock c) (fun db => ?_)
  refine noUK_bind (noUK_bind (noUK_getF _ _) noUK_forge_script) (fun scb => ?_)
  exact noUK_ok _

theorem noUK_forge_delegation (c : PyDict) : noUK (forge_delegation c) := by
  unfold forge_delegation
  refine noUK_bind (noUK_opTag c) (fun tg => ?_)
  refine noUK_bind (noUK_bind (noUK_getStrF _ _) (fun s => noUK_forge_address s true))
    (fun ab => ?_)
  refine noUK_bind (noUK_bind (noUK_getIntF _ _) noUK_forge_nat) (fun fb => ?_)
  refine noUK_bind (noUK_bind (noUK_getIntF _ _) noUK_forge_nat) (fun cb => ?_)
  refine noUK_bind (noUK_bind (noUK_getIntF _ _) noUK_forge_nat) (fun gb => ?_)
  refine noUK_bind (noUK_bind (noUK_getIntF _ _) noUK_forge_nat) (fun sb => ?_)
  refine noUK_bind (noUK_forgeDelegateBlock c) (fun db => ?_)
  exact noUK_ok _

theorem noUK_forge_endorsement (c : PyDict) : noUK (forge_endorsement c) := by
  unfold forge_endorsement
  refine noUK_bind (noUK_opTag c) (fun tg => ?_)
  refine noUK_bind (noUK_bind (noUK_getIntF _ _) noUK_forge_int32) (fun lb => ?_)
  exact noUK_ok _

theorem noUK_forge_inline_endorsement (v : PyVal) :
    noUK (forge_inline_endorsement v) := by
  unfold forge_inline_endorsement
  refine noUK_bind (noUK_asDict v) (fun c => ?_)
  refine noUK_bind (noUK_bind (noUK_getStrF _ _) noUK_forge_base58) (fun bb => ?_)
  refine noUK_bind (noUK_getF _ _) (fun ops => ?_)
  refine noUK_bind (noUK_pyIndex _ _) (fun kv => ?_)
  refine noUK_bind (noUK_kindTagOf kv) (fun tagNat => ?_)
  refine noUK_bind (noUK_forge_nat _) (fun tb => ?_)
  refine noUK_bind (noUK_bind (noUK_pyIndex _ _) noUK_pyInt) (fun lv => ?_)
  refine noUK_bind (noUK_forge_int32 lv) (fun lb => ?_)
  refine noUK_bind (noUK_bind (noUK_getStrF _ _) noUK_forge_base58) (fun sg => ?_)
  exact noUK_ok _

theorem noUK_forge_endorsement_with_slot (c : PyDict) :
    noUK (forge_endorsement_with_slot c) := by
  unfold forge_endorsement_with_slot
  refine noUK_bind (noUK_opTag c) (fun tg => ?_)
  refine noUK_bind (noUK_getF _ _) (fun ev => ?_)
  refine noUK_bind (noUK_forge_inline_endorsement ev) (fun ib => ?_)
  refine noUK_bind (noUK_forge_array ib 4) (fun ia => ?_)
  refine noUK_bind (noUK_getF _ _) (fun sv => ?_)
  refine noUK_bind (noUK_asInt sv) (fun sn => ?_)
  refine noUK_bind (noUK_forge_int16 sn) (fun sb => ?_)
  exact noUK_ok _

theorem noUK_forge_failing_noop (c : PyDict) : noUK (forge_failing_noop c) := by
  unfold forge_failing_noop
  refine noUK_bind (noUK_opTag c) (fun tg => ?_)
  refine noUK_bind (noUK_getStrF _ _) (fun ar => ?_)
  refine noUK_bind (noUK_forge_array _ 4) (fun ab => ?_)
  exact noUK_ok _

theorem noUK_forge_register_global_constant (c : PyDict) :
    noUK (forge_register_global_constant c) := by
  unfold forge_register_global_constant
  refine noUK_bind (noUK_opTag c) (fun tg => ?_)
  refine noUK_bind (noUK_bind (noUK_getStrF _ _) (fun s => noUK_forge_address s true))
    (fun ab => ?_)
  refine noUK_bind (noUK_bind (noUK_getIntF _ _) noUK_forge_nat) (fun fb => ?_)
  refine noUK_bind (noUK_bind (noUK_getIntF _ _) noUK_forge_nat) (fun cb => ?_)
  refine noUK_bind (noUK_bind (noUK_getIntF _ _) noUK_forge_nat) (fun gb => ?_)
  refine noUK_bind (noUK_bind (noUK_getIntF _ _) noUK_forge_nat) (fun sb => ?_)
  refine noUK_bind (noUK_bind (noUK_bind (noUK_bind (noUK_getF _ _) noUK_asMich)
    noUK_forge_micheline) (fun b => noUK_forge_array b 4)) (fun vb => ?_)
  exact noUK_ok _

theorem noUK_forge_transfer_ticket (c : PyDict) : noUK (forge_transfer_ticket c) := by
  unfold forge_transfer_ticket
  refine noUK_bind (noUK_opTag c) (fun tg => ?_)
  refine noUK_bind (noUK_bind (noUK_getStrF _ _) (fun s => noUK_forge_address s true))
    (fun ab => ?_)
  refine noUK_bind (noUK_bind (noUK_getIntF _ _) noUK_forge_nat) (fun fb => ?_)
  refine noUK_bind (noUK_bind (noUK_getIntF _ _) noUK_forge_nat) (fun cb => ?_)
  refine noUK_bind (noUK_bind (noUK_getIntF _ _) noUK_forge_nat) (fun gb => ?_)
  refine noUK_bind (noUK_bind (noUK_getIntF _ _) noUK_forge_nat) (fun sb => ?_)
  refine noUK_bind (noUK_bind (noUK_bind (noUK_bind (noUK_getF _ _) noUK_asMich)
    noUK_forge_micheline) (fun b => noUK_forge_array b 4)) (fun tcb => ?_)
  refine noUK_bind (noUK_bind (noUK_bind (noUK_bind (noUK_getF _ _) noUK_asMich)
    noUK_forge_micheline) (fun b => noUK_forge_array b 4)) (fun ttb => ?_)
  refine noUK_bind (noUK_bind (noUK_getStrF _ _) (fun s => noUK_forge_address s false))
    (fun tkb => ?_)
  refine noUK_bind (noUK_bind (noUK_getIntF _ _) noUK_forge_nat) (fun tab => ?_)
  refine noUK_bind (noUK_bind (noUK_getStrF _ _) (fun s => noUK_forge_address s false))
    (fun db => ?_)
  refine noUK_bind (noUK_getStrF _ _) (fun eb => ?_)
  refine noUK_bind (noUK_forge_array _ 4) (fun ea => ?_)
  exact noUK_ok _

theorem noUK_mapME (f : PyVal → Except Err Bytes) (hf : ∀ v, noUK (f v)) :
    (xs : List PyVal) → noUK (mapME f xs)
  | [] => by
    rw [mapME]
    exact noUK_ok _
  | x :: xs => by
    rw [mapME]
    exact noUK_bind (hf x)
      (fun b => noUK_bind (noUK_mapME f hf xs) (fun bs => noUK_ok _))

theorem noUK_forge_smart_rollup_add_messages (c : PyDict) :
    noUK (forge_smart_rollup_add_messages c) := by
  unfold forge_smart_rollup_add_messages
  refine noUK_bind (noUK_opTag c) (fun tg => ?_)
  refine noUK_bind (noUK_bind (noUK_getStrF _ _) (fun s => noUK_forge_address s true))
    (fun ab => ?_)
  refine noUK_bind (noUK_bind (noUK_getIntF _ _) noUK_forge_nat) (fun fb => ?_)
  refine noUK_bind (noUK_bind (noUK_getIntF _ _) noUK_forge_nat) (fun cb => ?_)
  refine noUK_bind (noUK_bind (noUK_getIntF _ _) noUK_forge_nat) (fun gb => ?_)
  refine noUK_bind (noUK_bind (noUK_getIntF _ _) noUK_forge_nat) (fun sb => ?_)
  refine noUK_bind (noUK_getF _ _) (fun mv => ?_)
  refine noUK_bind (noUK_asList mv) (fun xs => ?_)
  refine noUK_bind (noUK_mapME _ ?_ xs) (fun parts => ?_)
  · intro v
    refine noUK_bind (noUK_asStr v) (fun s => ?_)
    refine noUK_bind (noUK_hexDecode s) (fun d => ?_)
    exact noUK_forge_array d 4
  · refine noUK_bind (noUK_forge_array _ 4) (fun outer => ?_)
    exact noUK_ok _

theorem noUK_forge_smart_rollup_execute_outbox_message (c : PyDict) :
    noUK (forge_smart_rollup_execute_outbox_message c) := by
  unfold forge_smart_rollup_execute_outbox_message
  refine noUK_bind (noUK_opTag c) (fun tg => ?_)
  refine noUK_bind (noUK_bind (noUK_getStrF _ _) (fun s => noUK_forge_address s true))
    (fun ab => ?_)
  refine noUK_bind (noUK_bind (noUK_getIntF _ _) noUK_forge_nat) (fun fb => ?_)
  refine noUK_bind (noUK_bind (noUK_getIntF _ _) noUK_forge_nat) (fun cb => ?_)
  refine noUK_bind (noUK_bind (noUK_getIntF _ _) noUK_forge_nat) (fun gb => ?_)
  refine noUK_bind (noUK_bind (noUK_getIntF _ _) noUK_forge_nat) (fun sb => ?_)
  refine noUK_bind (noUK_bind (noUK_getStrF _ _) noUK_forge_base58) (fun rb => ?_)
  refine noUK_bind (noUK_bind (noUK_getStrF _ _) noUK_forge_base58) (fun ccb => ?_)
  refine noUK_bind (noUK_bind (noUK_getStrF _ _) noUK_hexDecode) (fun opb => ?_)
  refine noUK_bind (noUK_forge_array opb 4) (fun oa => ?_)
  exact noUK_ok _

/-! ### Dispatch and dict-lookup helper lemmas -/

theorem forge_operation_dispatch (c : PyDict) (k : String)
    (hk : dget c "kind" = some (.vstr k)) :
    forge_operation c =
      match List.lookup k encode_content with
      | some f => f c
      | none => .error (.unsupportedKind (.vstr k)) := by
  unfold forge_operation getF
  rw [hk]
  rfl

theorem lookup_keys_none {β : Type} (k : String) :
    (l : List (String × β)) → k ∉ l.map (fun e => e.1) → List.lookup k l = none
  | [], _ => rfl
  | (a, b) :: es, h => by
    rw [List.lookup]
    have hne : (k == a) = false := by
      rw [beq_eq_false_iff_ne]
      intro he
      exact h (by rw [he]; simp)
    rw [hne]
    exact lookup_keys_none k es (fun hm => h (by simp [hm]))

theorem dget_cons_self (k : String) (v : PyVal) (d : PyDict) :
    dget ((k, v) :: d) k = some v := by
  unfold dget
  rw [@List.find?_cons_of_pos (String × PyVal) (fun p => p.1 == k) (k, v) d (by simp)]
  rfl

theorem dget_cons_ne (k1 : String) (v : PyVal) (d : PyDict) (g : String)
    (h : ¬ g = k1) : dget ((k1, v) :: d) g = dget d g := by
  unfold dget
  have hp : ¬ ((fun p => p.1 == g) ((k1, v) : String × PyVal) = true) := by
    simp only [beq_iff_eq]
    exact fun he => h he.symm
  rw [@List.find?_cons_of_neg (String × PyVal) (fun p => p.1 == g) (k1, v) d hp]

/-! ### Claim theorems -/

/-- Claim C5, counterexample: an entrypoint name of 256 characters is not
reserved, yet `forge_entrypoint` does not return `0xff` followed by a
one-byte-length-prefixed string: the one-byte length prefix overflows. -/
theorem entrypoint_long_name_overflows :
    List.lookup (String.mk (List.replicate 256 'a')) reserved_entrypoints = none
    ∧ forge_entrypoint (String.mk (List.replicate 256 'a')) =
        .error Err.overflowLength := by
  constructor
  · rfl
  · set_option maxRecDepth 4096 in rfl

/-- Claim C5 (amended): each of the six reserved entrypoint names forges to
its fixed single byte; every non-reserved name whose UTF-8 encoding is at
most 255 bytes forges to `0xff`, the one-byte length and the UTF-8 bytes;
longer names fail with the length-overflow error. -/
theorem entrypoint_encoding :
    (forge_entrypoint "default" = .ok [0] ∧ forge_entrypoint "root" = .ok [1]
      ∧ forge_entrypoint "do" = .ok [2] ∧ forge_entrypoint "set_delegate" = .ok [3]
      ∧ forge_entrypoint "remove_delegate" = .ok [4]
      ∧ forge_entrypoint "deposit" = .ok [5])
    ∧ ∀ s : String, List.lookup s reserved_entrypoints = none →
        (forge_entrypoint s =
          if (utf8Encode s).length < 256 then
            .ok (255 :: (utf8Encode s).length :: utf8Encode s)
          else .error Err.overflowLength) := by
  constructor
  · exact ⟨rfl, rfl, rfl, rfl, rfl, rfl⟩
  · intro s h
    unfold forge_entrypoint
    rw [h]
    unfold forge_array
    by_cases hlen : (utf8Encode s).length < 256
    · rw [if_pos hlen, if_pos (show (utf8Encode s).length < 2 ^ (8 * 1) by simpa using hlen)]
      rw [emap_ok]
      have : natBE 1 (utf8Encode s).length = [(utf8Encode s).length] := by
        unfold natBE natBE
        rw [Nat.mod_eq_of_lt hlen]
        rfl
      rw [this]
      rfl
    · rw [if_neg hlen, if_neg (show ¬ (utf8Encode s).length < 2 ^ (8 * 1) by simpa using hlen)]
      rfl

/-- Witness for C5: the non-reserved four-byte name `mint`. -/
theorem entrypoint_encoding_witness :
    forge_entrypoint "mint" = .ok [255, 4, 109, 105, 110, 116] := by
  have h := entrypoint_encoding.2 "mint" rfl
  rw [h]
  rfl

/-- Claim C6: an endorsement forges to exactly the tag byte `0x00` followed
by the big-endian 4-byte two's-complement encoding of `level`, with no
manager prefix. -/
theorem endorsement_layout (c : PyDict) (lv : PyVal) (n : Int)
    (hk : dget c "kind" = some (.vstr "endorsement"))
    (hl : dget c "level" = some lv)
    (hn : pyInt lv = .ok n)
    (hrange : -(2 ^ 31) ≤ n ∧ n < 2 ^ 31) :
    forge_operation c = .ok (0 :: natBE 4 (n % ((2 ^ 32 : Nat) : Int)).toNat) := by
  rw [forge_operation_dispatch c _ hk]
  show forge_endorsement c = _
  have h1 : opTag c = .ok [0] := by
    unfold opTag getF
    rw [hk]
    rfl
  have h2 : getIntF c "level" = .ok n := by
    unfold getIntF getF
    rw [hl]
    show pyInt lv = .ok n
    exact hn
  have h3 : forge_int32 n = .ok (natBE 4 (n % ((2 ^ 32 : Nat) : Int)).toNat) := by
    unfold forge_int32 forge_fixed_int
    rw [if_pos (show -(2 ^ (8 * 4 - 1)) ≤ n ∧ n < 2 ^ (8 * 4 - 1) from hrange)]
  unfold forge_endorsement
  rw [h1, ebind_ok, h2, ebind_ok, h3, ebind_ok]
  rfl

/-- Witness for C6: `forge_operation` on the endorsement of level 1 yields
the five bytes `00 00 00 00 01`. -/
theorem endorsement_layout_witness :
    forge_operation [("kind", PyVal.vstr "endorsement"), ("level", PyVal.vint 1)] =
      .ok [0, 0, 0, 0, 1] :=
  endorsement_layout _ (PyVal.vint 1) 1 rfl rfl rfl (by constructor <;> norm_num)

/-- Each content of the group forges through `asDict` and `forge_operation`. -/
theorem mapME_forge_of_forall (cs : List PyDict) (rs : List Bytes)
    (h : List.Forall₂ (fun c r => forge_operation c = Except.ok r) cs rs) :
    mapME (fun v => asDict v >>= forge_operation) (cs.map PyVal.vdict) = .ok rs := by
  induction h with
  | nil => rfl
  | cons hcr _ ih =>
    rw [List.map_cons, mapME]
    show ((asDict (PyVal.vdict _) >>= forge_operation) >>= _) = _
    rw [show asDict (PyVal.vdict _) = Except.ok _ from rfl, ebind_ok, hcr, ebind_ok,
      ih, ebind_ok]

/-- Claim C2: the forged group is the decoded branch followed by the forged
contents, concatenated in their original order, with no reordering and no
deduplication. -/
theorem group_assembly (g : PyDict) (br : String) (bb : Bytes)
    (cs : List PyDict) (rs : List Bytes)
    (hbr : dget g "branch" = some (.vstr br))
    (hbb : forge_base58 br = .ok bb)
    (hcs : dget g "contents" = some (.vlist (cs.map PyVal.vdict)))
    (hrs : List.Forall₂ (fun c r => forge_operation c = Except.ok r) cs rs) :
    forge_operation_group g = .ok (bb ++ rs.flatten) := by
  unfold forge_operation_group
  have h1 : getStrF g "branch" = .ok br := by
    unfold getStrF getF
    rw [hbr]
    rfl
  have h2 : getF g "contents" = .ok (.vlist (cs.map PyVal.vdict)) := by
    unfold getF
    rw [hcs]
  rw [h1, ebind_ok, hbb, ebind_ok, h2, ebind_ok]
  show ((asList (PyVal.vlist _) >>= _) ) = _
  rw [show asList (PyVal.vlist (cs.map PyVal.vdict)) = Except.ok (cs.map PyVal.vdict) from rfl,
    ebind_ok, mapME_forge_of_forall cs rs hrs, ebind_ok]

/-- Witness for C2: a group with one endorsement content. -/
theorem group_assembly_witness :
    forge_operation_group
      [("branch", PyVal.vstr "BKkVZ8SigP89Xpt4nQsGLhUpzdEikCQZFvxCYAAwxK6jMa3hyKN"),
       ("contents", PyVal.vlist
         [PyVal.vdict [("kind", PyVal.vstr "endorsement"), ("level", PyVal.vint 1)]])] =
      .ok (List.replicate 32 5 ++ [0, 0, 0, 0, 1]) := by
  have h := group_assembly
    [("branch", PyVal.vstr "BKkVZ8SigP89Xpt4nQsGLhUpzdEikCQZFvxCYAAwxK6jMa3hyKN"),
     ("contents", PyVal.vlist
       [PyVal.vdict [("kind", PyVal.vstr "endorsement"), ("level", PyVal.vint 1)]])]
    "BKkVZ8SigP89Xpt4nQsGLhUpzdEikCQZFvxCYAAwxK6jMa3hyKN"
    (List.replicate 32 5)
    [[("kind", PyVal.vstr "endorsement"), ("level", PyVal.vint 1)]]
    [[0, 0, 0, 0, 1]]
    rfl (by rfl) rfl (List.Forall₂.cons (by rfl) List.Forall₂.nil)
  rw [h]
  rfl

/-- Claim C4: with a string `kind`, `forge_operation` fails with the
`unsupportedKind` error exactly when the kind is not one of the twelve
supported kinds, and for a supported kind it calls the encoder from the
dispatch table (so it can never produce that error). -/
theorem dispatch_unsupported_iff (c : PyDict) (k : String)
    (hk : dget c "kind" = some (.vstr k)) :
    ((∃ v, forge_operation c = .error (.unsupportedKind v)) ↔ k ∉ supported_kinds)
    ∧ (∀ f, List.lookup k encode_content = some f → forge_operation c = f c) := by
  have hdisp := forge_operation_dispatch c k hk
  constructor
  · constructor
    · rintro ⟨v, hv⟩ hm
      rw [hdisp] at hv
      simp only [supported_kinds, encode_content, List.map_cons, List.map_nil] at hm
      fin_cases hm
      · exact noUK_forge_failing_noop c v hv
      · exact noUK_forge_activate_account c v hv
      · exact noUK_forge_reveal c v hv
      · exact noUK_forge_transaction c v hv
      · exact noUK_forge_origination c v hv
      · exact noUK_forge_delegation c v hv
      · exact noUK_forge_endorsement c v hv
      · exact noUK_forge_endorsement_with_slot c v hv
      · exact noUK_forge_register_global_constant c v hv
      · exact noUK_forge_transfer_ticket c v hv
      · exact noUK_forge_smart_rollup_add_messages c v hv
      · exact noUK_forge_smart_rollup_execute_outbox_message c v hv
    · intro hm
      have hnone : List.lookup k encode_content = none :=
        lookup_keys_none k encode_content hm
      refine ⟨.vstr k, ?_⟩
      rw [hdisp, hnone]
  · intro f hf
    rw [hdisp, hf]

/-- Witness for C4, applied at the unsupported kind `double_bake`: the error
is raised, and no entry of the dispatch table is selected. -/
theorem dispatch_unsupported_iff_witness :
    ((∃ v, forge_operation [("kind", PyVal.vstr "double_bake")] =
        .error (.unsupportedKind v)) ↔ "double_bake" ∉ supported_kinds)
    ∧ (∀ f, List.lookup "double_bake" encode_content = some f →
        forge_operation [("kind", PyVal.vstr "double_bake")] = f
          [("kind", PyVal.vstr "double_bake")]) :=
  dispatch_unsupported_iff [("kind", PyVal.vstr "double_bake")] "double_bake" rfl

theorem getF_of_dget {c : PyDict} {f : String} {v : PyVal}
    (h : dget c f = some v) : getF c f = .ok v := by
  unfold getF
  rw [h]

theorem getStrF_of_dget {c : PyDict} {f : String} {s : String}
    (h : dget c f = some (.vstr s)) : getStrF c f = .ok s := by
  unfold getStrF
  rw [getF_of_dget h]
  rfl

/-- The parameters block of a transaction as claim C1 words it: `bool(false)`
when the `parameters` field is absent or is a default-unit call, else
`bool(true)`, the forged entrypoint and the 4-byte-length-prefixed Micheline
value.  This definition follows the claim text and is compared against the
source translation `forgeParamsBlock`. -/
def paramsBlockClaim : Option PyVal → Except Err Bytes
  | none => .ok [0]
  | some (.vdict [("entrypoint", .vstr ep), ("value", .vmich v)]) =>
    if ep == "default" && mbeq v unitM then .ok [0]
    else do
      let eb ← forge_entrypoint ep
      let mb ← forge_micheline v >>= (forge_array · 4)
      .ok (255 :: eb ++ mb)
  | some _ => .error .typeError

/-- On well-formed parameters the source's `has_parameters` gate plus forge
branch agree with the claim's three-case description. -/
theorem forgeParamsBlock_eq_claim (c : PyDict)
    (hpar : dget c "parameters" = none ∨
      ∃ ep v, dget c "parameters" =
        some (.vdict [("entrypoint", .vstr ep), ("value", .vmich v)])) :
    forgeParamsBlock c = paramsBlockClaim (dget c "parameters") := by
  rcases hpar with h | ⟨ep, v, h⟩
  · rw [h]
    simp [forgeParamsBlock, has_parameters, paramsBlockClaim, h, ebind_ok]
  · have hg : getF c "parameters" =
        .ok (.vdict [("entrypoint", .vstr ep), ("value", .vmich v)]) :=
      getF_of_dget h
    rw [h]
    by_cases hdef : ep = "default"
    · subst hdef
      by_cases hu : mbeq v unitM = true
      · simp [forgeParamsBlock, has_parameters, paramsBlockClaim, h, hg, hu,
          pyIndex, getF, dget_cons_self, dget_cons_ne, ebind_ok, truthyV]
      · rw [Bool.not_eq_true] at hu
        simp [forgeParamsBlock, has_parameters, paramsBlockClaim, h, hg, hu,
          pyIndex, getF, dget_cons_self, dget_cons_ne, asStr, asMich, ebind_ok, truthyV]
    · have hdb : (ep == "default") = false := beq_eq_false_iff_ne.mpr hdef
      simp [forgeParamsBlock, has_parameters, paramsBlockClaim, h, hg, hdb,
        pyIndex, getF, dget_cons_self, dget_cons_ne, asStr, asMich, ebind_ok, truthyV]

/-- Claim C1: a transaction forges to exactly the tag byte `0x6c`, the
tz-only source address, the four nats of the manager prefix, the amount nat,
the destination address and the parameters block of the claim, in that order
and nothing else. -/
theorem transaction_layout (c : PyDict) (src dst : String)
    (fee cnt gas st amt : Int) (ab fb cb gb sb amb db : Bytes)
    (hk : dget c "kind" = some (.vstr "transaction"))
    (hsrc : dget c "source" = some (.vstr src))
    (hab : forge_address src true = .ok ab)
    (hfee : getIntF c "fee" = .ok fee) (hfb : forge_nat fee = .ok fb)
    (hcnt : getIntF c "counter" = .ok cnt) (hcb : forge_nat cnt = .ok cb)
    (hgas : getIntF c "gas_limit" = .ok gas) (hgb : forge_nat gas = .ok gb)
    (hst : getIntF c "storage_limit" = .ok st) (hsb : forge_nat st = .ok sb)
    (hamt : getIntF c "amount" = .ok amt) (hamb : forge_nat amt = .ok amb)
    (hdst : dget c "destination" = some (.vstr dst))
    (hdb : forge_address dst false = .ok db)
    (hpar : dget c "parameters" = none ∨
      ∃ ep v, dget c "parameters" =
        some (.vdict [("entrypoint", .vstr ep), ("value", .vmich v)])) :
    forge_operation c = (paramsBlockClaim (dget c "parameters")).map
      (fun pb => [108] ++ ab ++ fb ++ cb ++ gb ++ sb ++ amb ++ db ++ pb) := by
  rw [forge_operation_dispatch c _ hk]
  show forge_transaction c = _
  have h1 : opTag c = .ok [108] := by
    unfold opTag getF
    rw [hk]
    rfl
  have hpb := forgeParamsBlock_eq_claim c hpar
  unfold forge_transaction
  rw [h1, ebind_ok]
  rw [getStrF_of_dget hsrc, ebind_ok, hab, ebind_ok]
  rw [hfee, ebind_ok, hfb, ebind_ok]
  rw [hcnt, ebind_ok, hcb, ebind_ok]
  rw [hgas, ebind_ok, hgb, ebind_ok]
  rw [hst, ebind_ok, hsb, ebind_ok]
  rw [hamt, ebind_ok, hamb, ebind_ok]
  rw [getStrF_of_dget hdst, ebind_ok, hdb, ebind_ok]
  rw [hpb]
  cases hres : paramsBlockClaim (dget c "parameters") with
  | ok pb => rw [ebind_ok, emap_ok]
  | error e => rw [ebind_error, emap_error]

/-- Witness for C1: a transaction with zero fee and amount and no
parameters, between two concrete `tz1` addresses. -/
theorem transaction_layout_witness :
    forge_operation
      [("kind", PyVal.vstr "transaction"),
       ("source", PyVal.vstr "tz1Ke3u9SqxvnkdNkgaCmydXg3zh3iYniWme"),
       ("fee", PyVal.vint 0), ("counter", PyVal.vint 1),
       ("gas_limit", PyVal.vint 0), ("storage_limit", PyVal.vint 0),
       ("amount", PyVal.vint 0),
       ("destination", PyVal.vstr "tz1PUyaqAPtZ4MaQjpuxDsmwzTfuu3wzW4Kr")] =
      .ok ([108] ++ (0 :: List.range 20) ++ [0] ++ [1] ++ [0] ++ [0] ++ [0]
        ++ (0 :: 0 :: List.replicate 20 42) ++ [0]) := by
  have h := transaction_layout
    [("kind", PyVal.vstr "transaction"),
     ("source", PyVal.vstr "tz1Ke3u9SqxvnkdNkgaCmydXg3zh3iYniWme"),
     ("fee", PyVal.vint 0), ("counter", PyVal.vint 1),
     ("gas_limit", PyVal.vint 0), ("storage_limit", PyVal.vint 0),
     ("amount", PyVal.vint 0),
     ("destination", PyVal.vstr "tz1PUyaqAPtZ4MaQjpuxDsmwzTfuu3wzW4Kr")]
    "tz1Ke3u9SqxvnkdNkgaCmydXg3zh3iYniWme" "tz1PUyaqAPtZ4MaQjpuxDsmwzTfuu3wzW4Kr"
    0 1 0 0 0
    (0 :: List.range 20) [0] [1] [0] [0] [0] (0 :: 0 :: List.replicate 20 42)
    rfl rfl (by rfl) rfl rfl rfl rfl rfl rfl rfl rfl rfl rfl rfl (by rfl)
    (Or.inl rfl)
  rw [h]
  rfl

/-- Claim C3: a transaction whose `parameters` field is the default-unit
call forges byte-for-byte like the same transaction with the field removed. -/
theorem params_omission (c1 c2 : PyDict)
    (hk : dget c1 "kind" = some (.vstr "transaction"))
    (hp1 : dget c1 "parameters" =
      some (.vdict [("entrypoint", .vstr "default"), ("value", .vmich unitM)]))
    (hp2 : dget c2 "parameters" = none)
    (hrest : ∀ g, ¬ g = "parameters" → dget c1 g = dget c2 g) :
    forge_operation c1 = forge_operation c2 := by
  have hk2 : dget c2 "kind" = some (.vstr "transaction") := by
    rw [← hrest "kind" (by decide)]
    exact hk
  rw [forge_operation_dispatch c1 _ hk, forge_operation_dispatch c2 _ hk2]
  have e1 : forgeParamsBlock c1 = .ok [0] := by
    rw [forgeParamsBlock_eq_claim c1 (Or.inr ⟨"default", unitM, hp1⟩), hp1]
    rfl
  have e2 : forgeParamsBlock c2 = .ok [0] := by
    rw [forgeParamsBlock_eq_claim c2 (Or.inl hp2), hp2]
    rfl
  exact forge_transaction_congr (hrest _ (by decide)) (hrest _ (by decide))
    (getIntF_congr (hrest _ (by decide))) (getIntF_congr (hrest _ (by decide)))
    (getIntF_congr (hrest _ (by decide))) (getIntF_congr (hrest _ (by decide)))
    (getIntF_congr (hrest _ (by decide))) (hrest _ (by decide))
    (e1.trans e2.symm)

/-- Witness for C3: the concrete transaction of the C1 witness, with and
without an explicit default-unit parameters dict. -/
theorem params_omission_witness :
    forge_operation
      (("parameters", PyVal.vdict
          [("entrypoint", PyVal.vstr "default"), ("value", PyVal.vmich unitM)]) ::
        [("kind", PyVal.vstr "transaction"),
         ("source", PyVal.vstr "tz1Ke3u9SqxvnkdNkgaCmydXg3zh3iYniWme"),
         ("fee", PyVal.vint 0), ("counter", PyVal.vint 1),
         ("gas_limit", PyVal.vint 0), ("storage_limit", PyVal.vint 0),
         ("amount", PyVal.vint 0),
         ("destination", PyVal.vstr "tz1PUyaqAPtZ4MaQjpuxDsmwzTfuu3wzW4Kr")]) =
    forge_operation
      [("kind", PyVal.vstr "transaction"),
       ("source", PyVal.vstr "tz1Ke3u9SqxvnkdNkgaCmydXg3zh3iYniWme"),
       ("fee", PyVal.vint 0), ("counter", PyVal.vint 1),
       ("gas_limit", PyVal.vint 0), ("storage_limit", PyVal.vint 0),
       ("amount", PyVal.vint 0),
       ("destination", PyVal.vstr "tz1PUyaqAPtZ4MaQjpuxDsmwzTfuu3wzW4Kr")] :=
  params_omission _ _ rfl rfl rfl (fun g hg => dget_cons_ne _ _ _ g hg)

/-- Claim C10: in a delegation or an origination, a present-but-falsy
`delegate` (None or the empty string) forges exactly like an absent one:
the single `bool(false)` byte is emitted and no address bytes follow. -/
theorem falsy_delegate (k : String) (c1 c2 : PyDict)
    (hkind : k = "delegation" ∨ k = "origination")
    (hk : dget c1 "kind" = some (.vstr k))
    (hd1 : dget c1 "delegate" = some PyVal.vnone
      ∨ dget c1 "delegate" = some (.vstr ""))
    (hd2 : dget c2 "delegate" = none)
    (hrest : ∀ g, ¬ g = "delegate" → dget c1 g = dget c2 g) :
    forgeDelegateBlock c1 = .ok [0] ∧ forge_operation c1 = forge_operation c2 := by
  have e1 : forgeDelegateBlock c1 = .ok [0] := by
    rcases hd1 with h | h <;>
      · unfold forgeDelegateBlock
        rw [h]
        rfl
  have e2 : forgeDelegateBlock c2 = .ok [0] := by
    unfold forgeDelegateBlock
    rw [hd2]
    rfl
  refine ⟨e1, ?_⟩
  rcases hkind with rfl | rfl
  · have hk2 : dget c2 "kind" = some (.vstr "delegation") := by
      rw [← hrest "kind" (by decide)]
      exact hk
    rw [forge_operation_dispatch c1 _ hk, forge_operation_dispatch c2 _ hk2]
    exact forge_delegation_congr (hrest _ (by decide)) (hrest _ (by decide))
      (getIntF_congr (hrest _ (by decide))) (getIntF_congr (hrest _ (by decide)))
      (getIntF_congr (hrest _ (by decide))) (getIntF_congr (hrest _ (by decide)))
      (e1.trans e2.symm)
  · have hk2 : dget c2 "kind" = some (.vstr "origination") := by
      rw [← hrest "kind" (by decide)]
      exact hk
    rw [forge_operation_dispatch c1 _ hk, forge_operation_dispatch c2 _ hk2]
    exact forge_origination_congr (hrest _ (by decide)) (hrest _ (by decide))
      (getIntF_congr (hrest _ (by decide))) (getIntF_congr (hrest _ (by decide)))
      (getIntF_congr (hrest _ (by decide))) (getIntF_congr (hrest _ (by decide)))
      (getIntF_congr (hrest _ (by decide))) (e1.trans e2.symm)
      (hrest _ (by decide))

/-- Witness for C10: a delegation with `delegate = None` against one with no
delegate field. -/
theorem falsy_delegate_witness :
    forgeDelegateBlock
      (("delegate", PyVal.vnone) ::
        [("kind", PyVal.vstr "delegation"),
         ("source", PyVal.vstr "tz1Ke3u9SqxvnkdNkgaCmydXg3zh3iYniWme"),
         ("fee", PyVal.vint 0), ("counter", PyVal.vint 1),
         ("gas_limit", PyVal.vint 0), ("storage_limit", PyVal.vint 0)]) = .ok [0]
    ∧ forge_operation
        (("delegate", PyVal.vnone) ::
          [("kind", PyVal.vstr "delegation"),
           ("source", PyVal.vstr "tz1Ke3u9SqxvnkdNkgaCmydXg3zh3iYniWme"),
           ("fee", PyVal.vint 0), ("counter", PyVal.vint 1),
           ("gas_limit", PyVal.vint 0), ("storage_limit", PyVal.vint 0)]) =
      forge_operation
        [("kind", PyVal.vstr "delegation"),
         ("source", PyVal.vstr "tz1Ke3u9SqxvnkdNkgaCmydXg3zh3iYniWme"),
         ("fee", PyVal.vint 0), ("counter", PyVal.vint 1),
         ("gas_limit", PyVal.vint 0), ("storage_limit", PyVal.vint 0)] :=
  falsy_delegate "delegation" _ _ (Or.inl rfl) rfl (Or.inl rfl) rfl
    (fun g hg => dget_cons_ne _ _ _ g hg)

/-- Each hex message of `smart_rollup_add_messages` becomes its own 4-byte
length-prefixed array. -/
theorem mapME_messages (msgs : List String) (ds : List Bytes)
    (hds : List.Forall₂ (fun m d => hexDecode m = Except.ok d) msgs ds)
    (hinner : ∀ d ∈ ds, d.length < 2 ^ 32) :
    mapME (fun v => do
        let s ← asStr v
        let d ← hexDecode s
        forge_array d 4) (msgs.map PyVal.vstr) =
      .ok (ds.map (fun d => natBE 4 d.length ++ d)) := by
  revert hinner
  induction hds with
  | nil =>
    intro _
    rfl
  | cons hmd htail ih =>
    intro hinner
    rename_i m d ms ds2
    have hfa : forge_array d 4 = .ok (natBE 4 d.length ++ d) := by
      unfold forge_array
      rw [if_pos (hinner d (by simp))]
    rw [List.map_cons, mapME]
    show ((do
        let s ← asStr (PyVal.vstr m)
        let d2 ← hexDecode s
        forge_array d2 4) >>= _) = _
    rw [show asStr (PyVal.vstr m) = Except.ok m from rfl, ebind_ok, hmd, ebind_ok, hfa,
      ebind_ok, ih (fun d2 hd2 => hinner d2 (by simp [hd2])), ebind_ok, List.map_cons]

/-- Claim C9: after the manager prefix, `smart_rollup_add_messages` emits a
single 4-byte-length-prefixed array whose payload is, in order, one 4-byte
length-prefixed array per hex-decoded message. -/
theorem add_messages_layout (c : PyDict) (src : String) (fee cnt gas st : Int)
    (ab fb cb gb sb : Bytes) (msgs : List String) (ds : List Bytes)
    (hk : dget c "kind" = some (.vstr "smart_rollup_add_messages"))
    (hsrc : dget c "source" = some (.vstr src))
    (hab : forge_address src true = .ok ab)
    (hfee : getIntF c "fee" = .ok fee) (hfb : forge_nat fee = .ok fb)
    (hcnt : getIntF c "counter" = .ok cnt) (hcb : forge_nat cnt = .ok cb)
    (hgas : getIntF c "gas_limit" = .ok gas) (hgb : forge_nat gas = .ok gb)
    (hst : getIntF c "storage_limit" = .ok st) (hsb : forge_nat st = .ok sb)
    (hmsg : dget c "message" = some (.vlist (msgs.map PyVal.vstr)))
    (hds : List.Forall₂ (fun m d => hexDecode m = Except.ok d) msgs ds)
    (hinner : ∀ d ∈ ds, d.length < 2 ^ 32)
    (houter : (ds.map (fun d => natBE 4 d.length ++ d)).flatten.length < 2 ^ 32) :
    forge_operation c = .ok ([201] ++ ab ++ fb ++ cb ++ gb ++ sb
      ++ (natBE 4 (ds.map (fun d => natBE 4 d.length ++ d)).flatten.length
        ++ (ds.map (fun d => natBE 4 d.length ++ d)).flatten)) := by
  rw [forge_operation_dispatch c _ hk]
  show forge_smart_rollup_add_messages c = _
  have h1 : opTag c = .ok [201] := by
    unfold opTag getF
    rw [hk]
    rfl
  have houterArr : forge_array (ds.map (fun d => natBE 4 d.length ++ d)).flatten 4 =
      .ok (natBE 4 (ds.map (fun d => natBE 4 d.length ++ d)).flatten.length
        ++ (ds.map (fun d => natBE 4 d.length ++ d)).flatten) := by
    unfold forge_array
    rw [if_pos houter]
  unfold forge_smart_rollup_add_messages
  rw [h1, ebind_ok]
  rw [getStrF_of_dget hsrc, ebind_ok, hab, ebind_ok]
  rw [hfee, ebind_ok, hfb, ebind_ok]
  rw [hcnt, ebind_ok, hcb, ebind_ok]
  rw [hgas, ebind_ok, hgb, ebind_ok]
  rw [hst, ebind_ok, hsb, ebind_ok]
  rw [getF_of_dget hmsg, ebind_ok]
  rw [show asList (PyVal.vlist (msgs.map PyVal.vstr)) =
    Except.ok (msgs.map PyVal.vstr) from rfl, ebind_ok]
  rw [mapME_messages msgs ds hds hinner, ebind_ok, houterArr, ebind_ok]

/-- Witness for C9: an empty message list yields the outer array prefix
`00000000` and nothing after it. -/
theorem add_messages_layout_witness :
    forge_operation
      [("kind", PyVal.vstr "smart_rollup_add_messages"),
       ("source", PyVal.vstr "tz1Ke3u9SqxvnkdNkgaCmydXg3zh3iYniWme"),
       ("fee", PyVal.vint 0), ("counter", PyVal.vint 1),
       ("gas_limit", PyVal.vint 0), ("storage_limit", PyVal.vint 0),
       ("message", PyVal.vlist [])] =
      .ok ([201] ++ (0 :: List.range 20) ++ [0] ++ [1] ++ [0] ++ [0]
        ++ [0, 0, 0, 0]) := by
  have h := add_messages_layout
    [("kind", PyVal.vstr "smart_rollup_add_messages"),
     ("source", PyVal.vstr "tz1Ke3u9SqxvnkdNkgaCmydXg3zh3iYniWme"),
     ("fee", PyVal.vint 0), ("counter", PyVal.vint 1),
     ("gas_limit", PyVal.vint 0), ("storage_limit", PyVal.vint 0),
     ("message", PyVal.vlist [])]
    "tz1Ke3u9SqxvnkdNkgaCmydXg3zh3iYniWme" 0 1 0 0
    (0 :: List.range 20) [0] [1] [0] [0] [] []
    rfl rfl (by rfl) rfl rfl rfl rfl rfl rfl rfl rfl rfl
    List.Forall₂.nil (by simp) (by norm_num)
  rw [h]
  rfl

/-- The fields each encoder reads from its content dict (from the source of
`forge.py`; every other field is never accessed). -/
def referenced_fields : String → List String
  | "failing_noop" => ["kind", "arbitrary"]
  | "activate_account" => ["kind", "pkh", "secret"]
  | "reveal" =>
    ["kind", "source", "fee", "counter", "gas_limit", "storage_limit", "public_key"]
  | "transaction" =>
    ["kind", "source", "fee", "counter", "gas_limit", "storage_limit", "amount",
     "destination", "parameters"]
  | "origination" =>
    ["kind", "source", "fee", "counter", "gas_limit", "storage_limit", "balance",
     "delegate", "script"]
  | "delegation" =>
    ["kind", "source", "fee", "counter", "gas_limit", "storage_limit", "delegate"]
  | "endorsement" => ["kind", "level"]
  | "endorsement_with_slot" => ["kind", "endorsement", "slot"]
  | "register_global_constant" =>
    ["kind", "source", "fee", "counter", "gas_limit", "storage_limit", "value"]
  | "transfer_ticket" =>
    ["kind", "source", "fee", "counter", "gas_limit", "storage_limit",
     "ticket_contents", "ticket_ty", "ticket_ticketer", "ticket_amount",
     "destination", "entrypoint"]
  | "smart_rollup_add_messages" =>
    ["kind", "source", "fee", "counter", "gas_limit", "storage_limit", "message"]
  | "smart_rollup_execute_outbox_message" =>
    ["kind", "source", "fee", "counter", "gas_limit", "storage_limit", "rollup",
     "cemented_commitment", "output_proof"]
  | _ => []

/-- Claim C8: for every supported kind, two contents of that kind agreeing
on the encoder's referenced fields forge to identical byte strings, whatever
unrelated extra fields they carry. -/
theorem irrelevant_fields_ignored (k : String) (c1 c2 : PyDict)
    (hmem : k ∈ supported_kinds)
    (hk1 : dget c1 "kind" = some (.vstr k))
    (hk2 : dget c2 "kind" = some (.vstr k))
    (hagree : ∀ g ∈ referenced_fields k, dget c1 g = dget c2 g) :
    forge_operation c1 = forge_operation c2 := by
  simp only [supported_kinds, encode_content, List.map_cons, List.map_nil] at hmem
  fin_cases hmem
  · rw [forge_operation_dispatch c1 _ hk1, forge_operation_dispatch c2 _ hk2]
    exact forge_failing_noop_congr (hagree _ (by decide)) (hagree _ (by decide))
  · rw [forge_operation_dispatch c1 _ hk1, forge_operation_dispatch c2 _ hk2]
    exact forge_activate_account_congr (hagree _ (by decide)) (hagree _ (by decide))
      (hagree _ (by decide))
  · rw [forge_operation_dispatch c1 _ hk1, forge_operation_dispatch c2 _ hk2]
    exact forge_reveal_congr (hagree _ (by decide)) (hagree _ (by decide))
      (getIntF_congr (hagree _ (by decide))) (getIntF_congr (hagree _ (by decide)))
      (getIntF_congr (hagree _ (by decide))) (getIntF_congr (hagree _ (by decide)))
      (hagree _ (by decide))
  · rw [forge_operation_dispatch c1 _ hk1, forge_operation_dispatch c2 _ hk2]
    exact forge_transaction_congr (hagree _ (by decide)) (hagree _ (by decide))
      (getIntF_congr (hagree _ (by decide))) (getIntF_congr (hagree _ (by decide)))
      (getIntF_congr (hagree _ (by decide))) (getIntF_congr (hagree _ (by decide)))
      (getIntF_congr (hagree _ (by decide))) (hagree _ (by decide))
      (forgeParamsBlock_congr (hagree _ (by decide)))
  · rw [forge_operation_dispatch c1 _ hk1, forge_operation_dispatch c2 _ hk2]
    exact forge_origination_congr (hagree _ (by decide)) (hagree _ (by decide))
      (getIntF_congr (hagree _ (by decide))) (getIntF_congr (hagree _ (by decide)))
      (getIntF_congr (hagree _ (by decide))) (getIntF_congr (hagree _ (by decide)))
      (getIntF_congr (hagree _ (by decide)))
      (forgeDelegateBlock_congr (hagree _ (by decide))) (hagree _ (by decide))
  · rw [forge_operation_dispatch c1 _ hk1, forge_operation_dispatch c2 _ hk2]
    exact forge_delegation_congr (hagree _ (by decide)) (hagree _ (by decide))
      (getIntF_congr (hagree _ (by decide))) (getIntF_congr (hagree _ (by decide)))
      (getIntF_congr (hagree _ (by decide))) (getIntF_congr (hagree _ (by decide)))
      (forgeDelegateBlock_congr (hagree _ (by decide)))
  · rw [forge_operation_dispatch c1 _ hk1, forge_operation_dispatch c2 _ hk2]
    exact forge_endorsement_congr (hagree _ (by decide))
      (getIntF_congr (hagree _ (by decide)))
  · rw [forge_operation_dispatch c1 _ hk1, forge_operation_dispatch c2 _ hk2]
    exact forge_endorsement_with_slot_congr (hagree _ (by decide))
      (hagree _ (by decide)) (hagree _ (by decide))
  · rw [forge_operation_dispatch c1 _ hk1, forge_operation_dispatch c2 _ hk2]
    exact forge_register_global_constant_congr (hagree _ (by decide))
      (hagree _ (by decide))
      (getIntF_congr (hagree _ (by decide))) (getIntF_congr (hagree _ (by decide)))
      (getIntF_congr (hagree _ (by decide))) (getIntF_congr (hagree _ (by decide)))
      (hagree _ (by decide))
  · rw [forge_operation_dispatch c1 _ hk1, forge_operation_dispatch c2 _ hk2]
    exact forge_transfer_ticket_congr (hagree _ (by decide)) (hagree _ (by decide))
      (getIntF_congr (hagree _ (by decide))) (getIntF_congr (hagree _ (by decide)))
      (getIntF_congr (hagree _ (by decide))) (getIntF_congr (hagree _ (by decide)))
      (hagree _ (by decide)) (hagree _ (by decide)) (hagree _ (by decide))
      (getIntF_congr (hagree _ (by decide))) (hagree _ (by decide))
      (hagree _ (by decide))
  · rw [forge_operation_dispatch c1 _ hk1, forge_operation_dispatch c2 _ hk2]
    exact forge_smart_rollup_add_messages_congr (hagree _ (by decide))
      (hagree _ (by decide))
      (getIntF_congr (hagree _ (by decide))) (getIntF_congr (hagree _ (by decide)))
      (getIntF_congr (hagree _ (by decide))) (getIntF_congr (hagree _ (by decide)))
      (hagree _ (by decide))
  · rw [forge_operation_dispatch c1 _ hk1, forge_operation_dispatch c2 _ hk2]
    exact forge_smart_rollup_execute_outbox_message_congr (hagree _ (by decide))
      (hagree _ (by decide))
      (getIntF_congr (hagree _ (by decide))) (getIntF_congr (hagree _ (by decide)))
      (getIntF_congr (hagree _ (by decide))) (getIntF_congr (hagree _ (by decide)))
      (hagree _ (by decide)) (hagree _ (by decide)) (hagree _ (by decide))

/-- Witness for C8: an endorsement with and without an extra unrelated field
forges identically. -/
theorem irrelevant_fields_ignored_witness :
    forge_operation [("kind", PyVal.vstr "endorsement"), ("level", PyVal.vint 1)] =
      forge_operation [("kind", PyVal.vstr "endorsement"), ("level", PyVal.vint 1),
        ("extra_unrelated", PyVal.vstr "ignored")] :=
  irrelevant_fields_ignored "endorsement" _ _ (by decide) rfl rfl
    (by
      intro g hg
      fin_cases hg <;> rfl)

/-- The top-level content fields each encoder passes through `int(...)`
before forging (from the source; `slot` is deliberately not among them). -/
def int_fields : String → List String
  | "reveal" => ["fee", "counter", "gas_limit", "storage_limit"]
  | "delegation" => ["fee", "counter", "gas_limit", "storage_limit"]
  | "register_global_constant" => ["fee", "counter", "gas_limit", "storage_limit"]
  | "smart_rollup_add_messages" => ["fee", "counter", "gas_limit", "storage_limit"]
  | "smart_rollup_execute_outbox_message" =>
    ["fee", "counter", "gas_limit", "storage_limit"]
  | "transaction" => ["fee", "counter", "gas_limit", "storage_limit", "amount"]
  | "origination" => ["fee", "counter", "gas_limit", "storage_limit", "balance"]
  | "transfer_ticket" =>
    ["fee", "counter", "gas_limit", "storage_limit", "ticket_amount"]
  | "endorsement" => ["level"]
  | _ => []

set_option maxRecDepth 16384 in
/-- Claim C7, counterexample: `slot` is handed to `forge_int16` without an
`int(...)` conversion, so an `endorsement_with_slot` whose slot arrives as
the decimal string `1` fails while the integer-slot version forges. -/
theorem slot_string_not_coerced :
    forge_operation
      [("kind", PyVal.vstr "endorsement_with_slot"),
       ("endorsement", PyVal.vdict
         [("branch", PyVal.vstr "BKkVZ8SigP89Xpt4nQsGLhUpzdEikCQZFvxCYAAwxK6jMa3hyKN"),
          ("operations", PyVal.vdict
            [("kind", PyVal.vstr "endorsement"), ("level", PyVal.vint 1)]),
          ("signature", PyVal.vstr "sigPArZ323VMnvQ4AgEBoCk6h45fQz1Pstg8A5hGir1BF4EwAsb3ZVtMydZbDvaShEu7U16VLu5HcPDm6PTbNuSx1dioEbyA")]),
       ("slot", PyVal.vstr "1")] = .error Err.typeError
    ∧ forge_operation
      [("kind", PyVal.vstr "endorsement_with_slot"),
       ("endorsement", PyVal.vdict
         [("branch", PyVal.vstr "BKkVZ8SigP89Xpt4nQsGLhUpzdEikCQZFvxCYAAwxK6jMa3hyKN"),
          ("operations", PyVal.vdict
            [("kind", PyVal.vstr "endorsement"), ("level", PyVal.vint 1)]),
          ("signature", PyVal.vstr "sigPArZ323VMnvQ4AgEBoCk6h45fQz1Pstg8A5hGir1BF4EwAsb3ZVtMydZbDvaShEu7U16VLu5HcPDm6PTbNuSx1dioEbyA")]),
       ("slot", PyVal.vint 1)] =
      .ok ([10] ++ [0, 0, 0, 101] ++ List.replicate 32 5 ++ [0] ++ [0, 0, 0, 1]
        ++ List.replicate 64 9 ++ [0, 1])
    ∧ forge_operation
      [("kind", PyVal.vstr "endorsement_with_slot"),
       ("endorsement", PyVal.vdict
         [("branch", PyVal.vstr "BKkVZ8SigP89Xpt4nQsGLhUpzdEikCQZFvxCYAAwxK6jMa3hyKN"),
          ("operations", PyVal.vdict
            [("kind", PyVal.vstr "endorsement"), ("level", PyVal.vint 1)]),
          ("signature", PyVal.vstr "sigPArZ323VMnvQ4AgEBoCk6h45fQz1Pstg8A5hGir1BF4EwAsb3ZVtMydZbDvaShEu7U16VLu5HcPDm6PTbNuSx1dioEbyA")]),
       ("slot", PyVal.vstr "1")] ≠
    forge_operation
      [("kind", PyVal.vstr "endorsement_with_slot"),
       ("endorsement", PyVal.vdict
         [("branch", PyVal.vstr "BKkVZ8SigP89Xpt4nQsGLhUpzdEikCQZFvxCYAAwxK6jMa3hyKN"),
          ("operations", PyVal.vdict
            [("kind", PyVal.vstr "endorsement"), ("level", PyVal.vint 1)]),
          ("signature", PyVal.vstr "sigPArZ323VMnvQ4AgEBoCk6h45fQz1Pstg8A5hGir1BF4EwAsb3ZVtMydZbDvaShEu7U16VLu5HcPDm6PTbNuSx1dioEbyA")]),
       ("slot", PyVal.vint 1)] := by
  refine ⟨rfl, rfl, ?_⟩
  intro h
  rw [show forge_operation
      [("kind", PyVal.vstr "endorsement_with_slot"),
       ("endorsement", PyVal.vdict
         [("branch", PyVal.vstr "BKkVZ8SigP89Xpt4nQsGLhUpzdEikCQZFvxCYAAwxK6jMa3hyKN"),
          ("operations", PyVal.vdict
            [("kind", PyVal.vstr "endorsement"), ("level", PyVal.vint 1)]),
          ("signature", PyVal.vstr "sigPArZ323VMnvQ4AgEBoCk6h45fQz1Pstg8A5hGir1BF4EwAsb3ZVtMydZbDvaShEu7U16VLu5HcPDm6PTbNuSx1dioEbyA")]),
       ("slot", PyVal.vstr "1")] = .error Err.typeError from rfl] at h
  exact Except.noConfusion h

/-- Claim C7 (amended): for every supported kind and every top-level numeric
field its encoder wraps in `int(...)`, a decimal-string value forges
byte-for-byte like the corresponding integer; the `slot` field is excluded,
as it is forged without the conversion. -/
theorem numeric_string_coercion (k f : String) (n : Int) (c1 c2 : PyDict)
    (hks : k ∈ supported_kinds)
    (hf : f ∈ int_fields k)
    (hk1 : dget c1 "kind" = some (.vstr k))
    (hv1 : dget c1 f = some (.vstr (intDecimalRepr n)))
    (hv2 : dget c2 f = some (.vint n))
    (hrest : ∀ g, ¬ g = f → dget c1 g = dget c2 g) :
    forge_operation c1 = forge_operation c2 := by
  have hspec : getIntF c1 f = getIntF c2 f := by
    unfold getIntF
    rw [getF_of_dget hv1, getF_of_dget hv2, ebind_ok, ebind_ok, pyInt_decimalRepr]
    rfl
  have hint : ∀ g, getIntF c1 g = getIntF c2 g := by
    intro g
    by_cases hg : g = f
    · subst hg
      exact hspec
    · exact getIntF_congr (hrest g hg)
  simp only [supported_kinds, encode_content, List.map_cons, List.map_nil] at hks
  fin_cases hks
  · simp [int_fields] at hf
  · simp [int_fields] at hf
  · have hfne : ∀ g, g ∉ int_fields "reveal" → ¬ g = f := fun g hg he => hg (he ▸ hf)
    have hk2 : dget c2 "kind" = some (.vstr "reveal") := by
      rw [← hrest "kind" (hfne _ (by decide))]
      exact hk1
    rw [forge_operation_dispatch c1 _ hk1, forge_operation_dispatch c2 _ hk2]
    exact forge_reveal_congr (hrest _ (hfne _ (by decide)))
      (hrest _ (hfne _ (by decide))) (hint _) (hint _) (hint _) (hint _)
      (hrest _ (hfne _ (by decide)))
  · have hfne : ∀ g, g ∉ int_fields "transaction" → ¬ g = f :=
      fun g hg he => hg (he ▸ hf)
    have hk2 : dget c2 "kind" = some (.vstr "transaction") := by
      rw [← hrest "kind" (hfne _ (by decide))]
      exact hk1
    rw [forge_operation_dispatch c1 _ hk1, forge_operation_dispatch c2 _ hk2]
    exact forge_transaction_congr (hrest _ (hfne _ (by decide)))
      (hrest _ (hfne _ (by decide))) (hint _) (hint _) (hint _) (hint _) (hint _)
      (hrest _ (hfne _ (by decide)))
      (forgeParamsBlock_congr (hrest _ (hfne _ (by decide))))
  · have hfne : ∀ g, g ∉ int_fields "origination" → ¬ g = f :=
      fun g hg he => hg (he ▸ hf)
    have hk2 : dget c2 "kind" = some (.vstr "origination") := by
      rw [← hrest "kind" (hfne _ (by decide))]
      exact hk1
    rw [forge_operation_dispatch c1 _ hk1, forge_operation_dispatch c2 _ hk2]
    exact forge_origination_congr (hrest _ (hfne _ (by decide)))
      (hrest _ (hfne _ (by decide))) (hint _) (hint _) (hint _) (hint _) (hint _)
      (forgeDelegateBlock_congr (hrest _ (hfne _ (by decide))))
      (hrest _ (hfne _ (by decide)))
  · have hfne : ∀ g, g ∉ int_fields "delegation" → ¬ g = f :=
      fun g hg he => hg (he ▸ hf)
    have hk2 : dget c2 "kind" = some (.vstr "delegation") := by
      rw [← hrest "kind" (hfne _ (by decide))]
      exact hk1
    rw [forge_operation_dispatch c1 _ hk1, forge_operation_dispatch c2 _ hk2]
    exact forge_delegation_congr (hrest _ (hfne _ (by decide)))
      (hrest _ (hfne _ (by decide))) (hint _) (hint _) (hint _) (hint _)
      (forgeDelegateBlock_congr (hrest _ (hfne _ (by decide))))
  · have hfne : ∀ g, g ∉ int_fields "endorsement" → ¬ g = f :=
      fun g hg he => hg (he ▸ hf)
    have hk2 : dget c2 "kind" = some (.vstr "endorsement") := by
      rw [← hrest "kind" (hfne _ (by decide))]
      exact hk1
    rw [forge_operation_dispatch c1 _ hk1, forge_operation_dispatch c2 _ hk2]
    exact forge_endorsement_congr (hrest _ (hfne _ (by decide))) (hint _)
  · simp [int_fields] at hf
  · have hfne : ∀ g, g ∉ int_fields "register_global_constant" → ¬ g = f :=
      fun g hg he => hg (he ▸ hf)
    have hk2 : dget c2 "kind" = some (.vstr "register_global_constant") := by
      rw [← hrest "kind" (hfne _ (by decide))]
      exact hk1
    rw [forge_operation_dispatch c1 _ hk1, forge_operation_dispatch c2 _ hk2]
    exact forge_register_global_constant_congr (hrest _ (hfne _ (by decide)))
      (hrest _ (hfne _ (by decide))) (hint _) (hint _) (hint _) (hint _)
      (hrest _ (hfne _ (by decide)))
  · have hfne : ∀ g, g ∉ int_fields "transfer_ticket" → ¬ g = f :=
      fun g hg he => hg (he ▸ hf)
    have hk2 : dget c2 "kind" = some (.vstr "transfer_ticket") := by
      rw [← hrest "kind" (hfne _ (by decide))]
      exact hk1
    rw [forge_operation_dispatch c1 _ hk1, forge_operation_dispatch c2 _ hk2]
    exact forge_transfer_ticket_congr (hrest _ (hfne _ (by decide)))
      (hrest _ (hfne _ (by decide))) (hint _) (hint _) (hint _) (hint _)
      (hrest _ (hfne _ (by decide))) (hrest _ (hfne _ (by decide)))
      (hrest _ (hfne _ (by decide))) (hint _) (hrest _ (hfne _ (by decide)))
      (hrest _ (hfne _ (by decide)))
  · have hfne : ∀ g, g ∉ int_fields "smart_rollup_add_messages" → ¬ g = f :=
      fun g hg he => hg (he ▸ hf)
    have hk2 : dget c2 "kind" = some (.vstr "smart_rollup_add_messages") := by
      rw [← hrest "kind" (hfne _ (by decide))]
      exact hk1
    rw [forge_operation_dispatch c1 _ hk1, forge_operation_dispatch c2 _ hk2]
    exact forge_smart_rollup_add_messages_congr (hrest _ (hfne _ (by decide)))
      (hrest _ (hfne _ (by decide))) (hint _) (hint _) (hint _) (hint _)
      (hrest _ (hfne _ (by decide)))
  · have hfne : ∀ g, g ∉ int_fields "smart_rollup_execute_outbox_message" → ¬ g = f :=
      fun g hg he => hg (he ▸ hf)
    have hk2 : dget c2 "kind" =
        some (.vstr "smart_rollup_execute_outbox_message") := by
      rw [← hrest "kind" (hfne _ (by decide))]
      exact hk1
    rw [forge_operation_dispatch c1 _ hk1, forge_operation_dispatch c2 _ hk2]
    exact forge_smart_rollup_execute_outbox_message_congr
      (hrest _ (hfne _ (by decide))) (hrest _ (hfne _ (by decide)))
      (hint _) (hint _) (hint _) (hint _) (hrest _ (hfne _ (by decide)))
      (hrest _ (hfne _ (by decide))) (hrest _ (hfne _ (by decide)))

/-- Witness for C7: an endorsement whose level arrives as the string `5`
forges like one with the integer 5. -/
theorem numeric_string_coercion_witness :
    forge_operation [("level", PyVal.vstr "5"), ("kind", PyVal.vstr "endorsement")] =
      forge_operation [("level", PyVal.vint 5), ("kind", PyVal.vstr "endorsement")] :=
  numeric_string_coercion "endorsement" "level" 5 _ _ (by decide) (by decide)
    rfl rfl rfl
    (fun g hg => (dget_cons_ne _ _ _ g hg).trans (dget_cons_ne _ _ _ g hg).symm)

end Forge
